/-
Verification of the jsonrpc-ts library (a transport-agnostic JSON-RPC 2.0
peer) against its natural-language design document.

Shallow embedding:
* JavaScript/JSON values are modelled by `Json`; JS numbers are rationals,
  so the io-ts `t.Integer` test (`n % 1 === 0`) becomes `den = 1`.
  A property that is absent or set to `undefined` is modelled by the field
  being absent (`jsField` returning `none`), which matches how every io-ts
  check and JSON serialization in the library treats `undefined`.
* Functions that may throw return `Option`/`Except`; `none`/`.error` is the
  thrown exception.
* The stateful `Peer` (a Node Duplex stream) becomes a state record
  `PeerState` plus a step function over explicit events: an inbound chunk
  (`_write`), a timer firing, the end-of-stream `finish` event, and the
  public operations.  Promises become single-assignment handles in the
  state: settling an already-settled handle is a no-op (JS promise
  semantics), and the `clearTimeout` continuations attached in `callMethod`
  are folded into settlement.  Real-time durations are abstracted: a timer
  firing is an explicit event.
* `this.push(...)` (Node stream.Readable push) appends the chunk to
  `outbox`; the Peer never ends its own readable side, so push never
  throws.  `emit('protocolError', e)` appends to `protocolErrorEvents`;
  an error passed to the `_write` callback, or emitted via `emit('error')`,
  appends to `errorEvents`.
-/
import Mathlib

namespace JsonRpc

/-- JavaScript/JSON values.  Numbers are rationals (JS doubles restricted to
the values the library ever inspects); objects are ordered field lists. -/
inductive Json where
  | null
  | bool (b : Bool)
  | num (q : Rat)
  | str (s : String)
  | arr (elems : List Json)
  | obj (fields : List (String × Json))

mutual

/-- Boolean equality on JSON values (SameValueZero on the fragment the
library compares, e.g. `Map` keys).  Written as a mutual recursion because
no deriving handler applies through the nested list positions. -/
def beqJson : Json → Json → Bool
  | .obj fa, .obj fb => beqJsonFields fa fb
  | .arr ea, .arr eb => beqJsonList ea eb
  | .str sa, .str sb => sa == sb
  | .num qa, .num qb => qa == qb
  | .bool ba, .bool bb => ba == bb
  | .null, .null => true
  | _, _ => false

def beqJsonList (ea eb : List Json) : Bool :=
  match ea, eb with
  | u :: us, w :: ws => beqJson u w && beqJsonList us ws
  | [], [] => true
  | _, _ => false

def beqJsonFields (fa fb : List (String × Json)) : Bool :=
  match fa, fb with
  | f :: fs, g :: gs => f.1 == g.1 && (beqJson f.2 g.2 && beqJsonFields fs gs)
  | [], [] => true
  | _, _ => false

end

mutual

theorem beqJson_eq : ∀ a b, beqJson a b = true → a = b
  | .obj fa, .obj fb, h => congrArg Json.obj (beqJsonFields_eq fa fb h)
  | .arr ea, .arr eb, h => congrArg Json.arr (beqJsonList_eq ea eb h)
  | .str sa, .str sb, h => by
      simp only [beqJson, beq_iff_eq] at h; exact congrArg Json.str h
  | .num qa, .num qb, h => by
      simp only [beqJson, beq_iff_eq] at h; exact congrArg Json.num h
  | .bool ba, .bool bb, h => by
      simp only [beqJson, beq_iff_eq] at h; exact congrArg Json.bool h
  | .null, .null, _ => rfl

theorem beqJsonList_eq : ∀ ea eb, beqJsonList ea eb = true → ea = eb
  | [], [], _ => rfl
  | u :: us, w :: ws, h => by
      simp only [beqJsonList, Bool.and_eq_true] at h
      exact congrArg₂ List.cons (beqJson_eq u w h.1) (beqJsonList_eq us ws h.2)

theorem beqJsonFields_eq : ∀ fa fb, beqJsonFields fa fb = true → fa = fb
  | [], [], _ => rfl
  | f :: fs, g :: gs, h => by
      simp only [beqJsonFields, Bool.and_eq_true, beq_iff_eq] at h
      have hfg : f = g := Prod.ext h.1 (beqJson_eq f.2 g.2 h.2.1)
      rw [hfg, beqJsonFields_eq fs gs h.2.2]

end

mutual

theorem beqJson_refl : ∀ a, beqJson a a = true
  | .obj fa => beqJsonFields_refl fa
  | .arr ea => beqJsonList_refl ea
  | .str sa => by simp [beqJson]
  | .num qa => by simp [beqJson]
  | .bool ba => by simp [beqJson]
  | .null => rfl

theorem beqJsonList_refl : ∀ ea, beqJsonList ea ea = true
  | [] => rfl
  | u :: us => by
      simp only [beqJsonList, Bool.and_eq_true]
      exact ⟨beqJson_refl u, beqJsonList_refl us⟩

theorem beqJsonFields_refl : ∀ fa, beqJsonFields fa fa = true
  | [] => rfl
  | f :: fs => by
      simp only [beqJsonFields, Bool.and_eq_true, beq_self_eq_true]
      exact ⟨trivial, beqJson_refl f.2, beqJsonFields_refl fs⟩

end

instance : DecidableEq Json := fun a b =>
  if h : beqJson a b = true then
    isTrue (beqJson_eq a b h)
  else
    isFalse (fun he => h (he ▸ beqJson_refl a))

/-- JS property access `v[k]`, with `none` for `undefined` (absent field or
non-object receiver — JSON data never stores `undefined`, and JSON arrays
and primitives have none of the named fields the library reads). -/
def jsField (v : Json) (k : String) : Option Json :=
  match v with
  | .obj fields => fields.lookup k
  | _ => none

/-- io-ts `t.Integer.is`: a number with no fractional part. -/
def Integer_is (v : Json) : Bool :=
  match v with
  | .num q => q.den == 1
  | _ => false

/-- io-ts `RPCID.is` (`t.union([t.Integer, t.string])`). -/
def RPCID_is (v : Json) : Bool :=
  match v with
  | .num q => q.den == 1
  | .str _ => true
  | _ => false

/-- io-ts `Structured.is` (`t.union([t.dictionary(t.string, t.any), t.Array])`). -/
def Structured_is (v : Json) : Bool :=
  match v with
  | .obj _ => true
  | .arr _ => true
  | _ => false

/-- io-ts `Primitive.is` (`t.union([t.string, t.number, t.boolean, t.null])`). -/
def Primitive_is (v : Json) : Bool :=
  match v with
  | .str _ => true
  | .num _ => true
  | .bool _ => true
  | .null => true
  | _ => false

/-- io-ts `Some.is` (`t.union([Primitive, Structured])`): any JSON value. -/
def Some_is (v : Json) : Bool :=
  Primitive_is v || Structured_is v

/-- io-ts `Dictionary.is`: a non-null value of type object. -/
def Dictionary_is (v : Json) : Bool :=
  match v with
  | .obj _ => true
  | .arr _ => true
  | _ => false

/-- `v[k]` is a string. -/
def fieldIsString (v : Json) (k : String) : Bool :=
  match jsField v k with
  | some (.str _) => true
  | _ => false

/-- `v[k]` passes a check, or is `undefined` (for `t.union([τ, t.undefined])`
in a required props block, and for `t.partial` entries). -/
def fieldIsOpt (v : Json) (k : String) (check : Json → Bool) : Bool :=
  match jsField v k with
  | some w => check w
  | none => true

/-- `RequestJSON.is`: jsonrpc literal "2.0", string method, RPCID id,
params structured or undefined; result and error must be undefined. -/
def RequestJSON_is (v : Json) : Bool :=
  Dictionary_is v &&
  jsField v "jsonrpc" == some (.str "2.0") &&
  fieldIsString v "method" &&
  (match jsField v "id" with | some i => RPCID_is i | none => false) &&
  fieldIsOpt v "params" Structured_is &&
  jsField v "result" == none &&
  jsField v "error" == none

/-- `NotificationJSON.is`: like a Request but id must be undefined. -/
def NotificationJSON_is (v : Json) : Bool :=
  Dictionary_is v &&
  jsField v "jsonrpc" == some (.str "2.0") &&
  fieldIsString v "method" &&
  fieldIsOpt v "params" Structured_is &&
  jsField v "id" == none &&
  jsField v "result" == none &&
  jsField v "error" == none

/-- `ResponseJSON.is`: jsonrpc "2.0", result present (any JSON value),
integer/string id; method, params and error must be undefined. -/
def ResponseJSON_is (v : Json) : Bool :=
  Dictionary_is v &&
  jsField v "jsonrpc" == some (.str "2.0") &&
  (match jsField v "result" with | some r => Some_is r | none => false) &&
  (match jsField v "id" with | some i => RPCID_is i | none => false) &&
  jsField v "method" == none &&
  jsField v "params" == none &&
  jsField v "error" == none

/-- `RPCError.is`: object with integer code and string message; data
optional (any JSON value). -/
def RPCErrorShape_is (v : Json) : Bool :=
  Dictionary_is v &&
  (match jsField v "code" with | some c => Integer_is c | none => false) &&
  fieldIsString v "message" &&
  fieldIsOpt v "data" Some_is

/-- `ErrorJSON.is`: jsonrpc "2.0", error member passing `RPCError.is`,
id present and an RPCID or null; method, params and result undefined. -/
def ErrorJSON_is (v : Json) : Bool :=
  Dictionary_is v &&
  jsField v "jsonrpc" == some (.str "2.0") &&
  (match jsField v "error" with | some e => RPCErrorShape_is e | none => false) &&
  (match jsField v "id" with
   | some i => RPCID_is i || i == Json.null
   | none => false) &&
  jsField v "method" == none &&
  jsField v "params" == none &&
  jsField v "result" == none

/-- Parsed and categorized JSON-RPC message (`jrpc.Message`).  The id and
the error member keep their raw JSON form, exactly as `parse` copies them
out of the validated object. -/
inductive Message where
  | request (id : Json) (method : String) (params : Option Json)
  | notification (method : String) (params : Option Json)
  | response (id : Json) (result : Json)
  | error (id : Json) (errObj : Json)
deriving DecidableEq

/-- `jrpc.parse`: classify a structured value as one of the four message
kinds, trying Request, Notification, Response, Error in this order;
`none` models the thrown `TypeError('Not a valid JSON-RPC object')`. -/
def parse (v : Json) : Option Message :=
  if RequestJSON_is v then
    match jsField v "id", jsField v "method" with
    | some i, some (.str m) => some (.request i m (jsField v "params"))
    | _, _ => none
  else if NotificationJSON_is v then
    match jsField v "method" with
    | some (.str m) => some (.notification m (jsField v "params"))
    | _ => none
  else if ResponseJSON_is v then
    match jsField v "id", jsField v "result" with
    | some i, some r => some (.response i r)
    | _, _ => none
  else if ErrorJSON_is v then
    match jsField v "id", jsField v "error" with
    | some i, some e => some (.error i e)
    | _, _ => none
  else
    none

/-- Optional-field helper for the builders: an `undefined` argument becomes
an absent property (identical for io-ts checks and for JSON serialization). -/
def optField (k : String) (v : Option Json) : List (String × Json) :=
  match v with
  | some w => [(k, w)]
  | none => []

/-- `jrpc.request(id, method, params?)`; `none` is the thrown TypeError for
an invalid id. -/
def request (id : Json) (method : String) (params : Option Json) : Option Json :=
  if RPCID_is id then
    some (.obj ([("id", id), ("method", .str method)] ++ optField "params" params
      ++ [("jsonrpc", .str "2.0")]))
  else
    none

/-- `jrpc.notification(method, params?)`; never fails. -/
def notification (method : String) (params : Option Json) : Json :=
  .obj ([("method", .str method)] ++ optField "params" params
    ++ [("jsonrpc", .str "2.0")])

/-- `jrpc.response(id, result?)`; an omitted result serializes as null;
`none` is the thrown TypeError for an invalid id. -/
def response (id : Json) (result : Option Json) : Option Json :=
  if RPCID_is id then
    some (.obj [("id", id), ("jsonrpc", .str "2.0"),
      ("result", result.getD .null)])
  else
    none

/-- `jrpc.error({id?, code, message, data?})`; the id defaults to null;
`none` is the thrown TypeError for a non-null non-RPCID id or a
non-integer code. -/
def error (id : Option Json) (code : Rat) (message : String)
    (data : Option Json) : Option Json :=
  let nulledId := id.getD .null
  if nulledId != Json.null && !RPCID_is nulledId then
    none
  else if !(code.den == 1) then
    none
  else
    some (.obj [("jsonrpc", .str "2.0"), ("id", nulledId),
      ("error", .obj ([("code", .num code), ("message", .str message)]
        ++ optField "data" data))])

/-- `Number.MAX_SAFE_INTEGER`. -/
def MAX_SAFE_INTEGER : Int := 2 ^ 53 - 1

/-- `Number.MIN_SAFE_INTEGER`. -/
def MIN_SAFE_INTEGER : Int := -(2 ^ 53 - 1)

/-- The `NumericIdIterator` constructor: validates the starting value
(`initialValue % 1 !== 0`, range check) and stores it as the counter
state; `none` models the thrown TypeError. -/
def NumericIdIterator.build (initialValue : Rat) : Option Int :=
  if initialValue.den != 1 ||
      initialValue > (MAX_SAFE_INTEGER : Rat) ||
      initialValue < (MIN_SAFE_INTEGER : Rat) then
    none
  else
    some initialValue.num

/-- `NumericIdIterator.next()`: yields the current state; the state wraps
from `MAX_SAFE_INTEGER` to `MIN_SAFE_INTEGER`, else increments by 1.
Returns (yielded value, new state); `done` is always false. -/
def NumericIdIterator.next (state : Int) : Int × Int :=
  (state, if state == MAX_SAFE_INTEGER then MIN_SAFE_INTEGER else state + 1)

/-- The values yielded by `n` successive pulls from iterator state `s`. -/
def NumericIdIterator.pulls (s : Int) : Nat → List Int
  | 0 => []
  | n + 1 =>
      (NumericIdIterator.next s).1 ::
        NumericIdIterator.pulls (NumericIdIterator.next s).2 n

/-- A registered handler (`TypedHandlerFn`): the io-ts runtime type is its
decode function (`V` the decoded/transformed value type), failures carry
the `PathReporter` diagnostics; `fn` is the implementation (`R` its
result type). -/
structure TypedHandlerFn (V R : Type) where
  paramsType : Option Json → Except (List String) V
  fn : V → R

/-- A handler collection (`Map<string, TypedHandlerFn[]>`): an
insertion-ordered association list from method name to the registered
handlers in registration order. -/
def HandlerMap (V R : Type) : Type := List (String × List (TypedHandlerFn V R))

/-- Map lookup by method name. -/
def hlookup {V R : Type} : HandlerMap V R → String → Option (List (TypedHandlerFn V R))
  | [], _ => none
  | (k, hs) :: rest, name => if k = name then some hs else hlookup rest name

/-- `Map.set`-with-push as `TypesafeRequestDispatcher.register` performs it:
append the handler to the existing list for the name, or create a
one-element list. -/
def insertHandler {V R : Type} :
    HandlerMap V R → String → TypedHandlerFn V R → HandlerMap V R
  | [], name, h => [(name, [h])]
  | (k, hs) :: rest, name, h =>
      if k = name then (k, hs ++ [h]) :: rest
      else (k, hs) :: insertHandler rest name h

/-- `TypesafeRequestDispatcher.register`: rejects reserved `rpc.`-prefixed
method names (`none` models the thrown TypeError), else records the
handler after all previously registered ones. -/
def register {V R : Type} (collection : HandlerMap V R) (name : String)
    (h : TypedHandlerFn V R) : Option (HandlerMap V R) :=
  if name.startsWith "rpc." then none
  else some (insertHandler collection name h)

/-- Faults thrown by `TypesafeRequestDispatcher.onRequest`. -/
inductive DispatchError where
  | methodNotFound (message : String)
  | invalidParams (message : String) (validationErrors : List (List String))
deriving Repr

/-- The overload loop of `TypesafeRequestDispatcher.onRequest`: try each
handler in order, accumulating the validation diagnostics of the failed
ones; the first successful decode wins. -/
def tryHandlers {V R : Type} (method : String) (params : Option Json) :
    List (TypedHandlerFn V R) → List (List String) → Except DispatchError R
  | [], validationErrors =>
      .error (.invalidParams ("Invalid parameters for method " ++ method)
        validationErrors)
  | h :: rest, validationErrors =>
      match h.paramsType params with
      | .ok decoded => .ok (h.fn decoded)
      | .error errs => tryHandlers method params rest (validationErrors ++ [errs])

/-- `TypesafeRequestDispatcher.onRequest`: resolve an incoming request to
the first registered handler whose parameter shape accepts the params. -/
def onRequestDispatch {V R : Type} (requestHandlers : HandlerMap V R)
    (method : String) (params : Option Json) : Except DispatchError R :=
  match hlookup requestHandlers method with
  | none => .error (.methodNotFound ("No such method: '" ++ method ++ "'"))
  | some handlers => tryHandlers method params handlers []

/-- The JS error values the Peer creates or observes.  `rpcError` models a
`new RPCError(error.message, error.code, error.data)` built from a wire
Error object (the three fields are raw property reads, hence `Option`);
`jsError` is any other JS exception, identified by its message. -/
inductive Fault where
  | methodCallTimeout (method : String)
  | rpcStreamClosed (method : String)
  | rpcError (message : Option Json) (code : Option Json) (data : Option Json)
  | unexpectedResponse (id : Json) (kind : String)
  | parseError (message : String) (data : Option Json)
  | invalidRequest (message : String) (badObject : Json)
  | jsError (message : String)
deriving DecidableEq

/-- The settled state of a promise handle. -/
inductive Outcome where
  | resolved (value : Json)
  | rejected (reason : Fault)
deriving DecidableEq

/-- A `PendingRequest` entry: the method name for diagnostics and the
promise handle its resolve/reject functions settle. -/
structure PendingRequest where
  method : String
  handle : Nat
deriving DecidableEq

/-- A timer armed by `setTimeout` in `callMethod`: rejecting `handle` with
a `MethodCallTimeout` for `method` when it fires; `active` is false once
the timer fired or `clearTimeout` ran. -/
structure Timer where
  handle : Nat
  method : String
  active : Bool
deriving DecidableEq

/-- The observable state of a `Peer`.  `handles` is the store of promise
handles (index = handle id, `none` = unsettled); `pending` is the
`pendingRequests` map (insertion-ordered, unique keys); `iter` is the
remaining output of the request-id iterator (`[]` = exhausted); `outbox`
is every chunk pushed to the readable side; `protocolErrorEvents` are the
`'protocolError'` emissions; `errorEvents` are the errors surfaced
through the `_write` callback or `emit('error')`. -/
structure PeerState where
  pending : List (Json × PendingRequest)
  ended : Bool
  iter : List Json
  handles : List (Option Outcome)
  timers : List Timer
  outbox : List Json
  protocolErrorEvents : List Fault
  errorEvents : List Fault
deriving DecidableEq

/-- `pendingRequests.get(id)`. -/
def plookup : List (Json × PendingRequest) → Json → Option PendingRequest
  | [], _ => none
  | (k, v) :: rest, id => if k = id then some v else plookup rest id

/-- `pendingRequests.delete(id)` (keys are unique, so removing every
occurrence coincides with `Map.delete`). -/
def pdelete : List (Json × PendingRequest) → Json → List (Json × PendingRequest)
  | [], _ => []
  | (k, v) :: rest, id =>
      if k = id then pdelete rest id else (k, v) :: pdelete rest id

/-- Deactivate every timer whose `clearTimeout` continuation is attached to
handle `h` (armed in `callMethod` via `promise.then`). -/
def clearTimersFor (h : Nat) (timers : List Timer) : List Timer :=
  timers.map (fun t => if t.handle == h then { t with active := false } else t)

/-- Settle promise handle `h`: a no-op when the handle is already settled
(JS promise semantics — the first of resolve/reject wins) or does not
exist; on first settlement the `clearTimeout` continuation attached to
the handle runs. -/
def settle (st : PeerState) (h : Nat) (o : Outcome) : PeerState :=
  match st.handles[h]? with
  | some none =>
      { st with handles := st.handles.set h (some o),
                timers := clearTimersFor h st.timers }
  | _ => st

/-- `this.push(chunk)` on the readable side: append to the outbox.  The
Peer never ends its own readable side, so push never throws. -/
def pushMsg (st : PeerState) (m : Json) : PeerState :=
  { st with outbox := st.outbox ++ [m] }

/-- `Peer.pushError(errorSpec)`: `this.push(jrpc.error(errorSpec))`;
`none` models `jrpc.error` throwing on an invalid spec. -/
def pushError (st : PeerState) (id : Option Json) (code : Rat)
    (message : String) (data : Option Json) : Option PeerState :=
  (error id code message data).map (pushMsg st)

/-- Internal call sites of `pushError` where the spec is statically valid
(integer code literal, id from a parsed message): the `none` branch is
unreachable there. -/
def pushErrObj (st : PeerState) (id : Option Json) (code : Rat)
    (message : String) (data : Option Json) : PeerState :=
  (pushError st id code message data).getD st

/-- `Peer.sendNotification(method, params?)`. -/
def sendNotification (st : PeerState) (method : String)
    (params : Option Json) : PeerState :=
  pushMsg st (notification method params)

/-- Result of `Peer.callMethod`: either the returned promise handle, or a
synchronously thrown Error (out of ids / id collision), after the side
effects performed before the throw. -/
inductive CallResult where
  | ok (st : PeerState) (handle : Nat)
  | fatal (st : PeerState) (message : String)
deriving DecidableEq

def CallResult.state : CallResult → PeerState
  | .ok st _ => st
  | .fatal st _ => st

/-- `Peer.callMethod(method, params?, {timeout})`.  When ended, returns a
pre-rejected promise without touching the iterator or emitting anything.
Otherwise pulls an id (throwing when the iterator is exhausted or the id
collides with a pending entry), then runs the promise executor: push the
Request (a TypeError from `jrpc.request` rejects the new promise), record
the pending entry, and arm the timer when a timeout is given.  The
duration itself is abstracted; firing is an explicit event. -/
def callMethod (st : PeerState) (method : String) (params : Option Json)
    (timeout : Option Rat) : CallResult :=
  if st.ended then
    .ok { st with
          handles := st.handles ++ [some (.rejected (.rpcStreamClosed method))] }
      st.handles.length
  else
    match st.iter with
    | [] => .fatal st "Out of Request IDs! Request ID iterator is not infinite"
    | id :: rest =>
      let st₁ := { st with iter := rest }
      if (plookup st₁.pending id).isSome then
        .fatal st₁
          "Request ID iterator yielded a value which was already used in a pending request"
      else
        match request id method params with
        | none =>
            .ok { st₁ with
                  handles := st₁.handles ++
                    [some (.rejected (.jsError "Request ID must be a string or integer"))] }
              st₁.handles.length
        | some req =>
            let h := st₁.handles.length
            let st₂ := pushMsg { st₁ with handles := st₁.handles ++ [none] } req
            let st₃ := { st₂ with pending := st₂.pending ++ [(id, ⟨method, h⟩)] }
            match timeout with
            | some _ => .ok { st₃ with timers := st₃.timers ++ [⟨h, method, true⟩] } h
            | none => .ok st₃ h

/-- The `'finish'` listener `Peer.onend`: set the ended flag, reject every
pending request with `RPCStreamClosed`, clear the map. -/
def onend (st : PeerState) : PeerState :=
  let st₁ := { st with ended := true }
  let st₂ := st₁.pending.foldl
    (fun acc kv => settle acc kv.2.handle (.rejected (.rpcStreamClosed kv.2.method)))
    st₁
  { st₂ with pending := [] }

/-- A `setTimeout` callback from `callMethod` firing: reject the call's
promise with `MethodCallTimeout`.  The pending entry is not touched. -/
def fireTimer (st : PeerState) (t : Nat) : PeerState :=
  match st.timers[t]? with
  | some tm =>
      if tm.active then
        settle st tm.handle (.rejected (.methodCallTimeout tm.method))
      else st
  | none => st

/-- `Peer.handleResponse`: consume the pending entry and resolve it, or
throw `UnexpectedResponse` (second component). -/
def handleResponse (st : PeerState) (id : Json) (result : Json) :
    PeerState × Option Fault :=
  match plookup st.pending id with
  | some rpcCall =>
      (settle { st with pending := pdelete st.pending id }
        rpcCall.handle (.resolved result), none)
  | none => (st, some (.unexpectedResponse id "response"))

/-- `Peer.handleError`: build the `RPCError` from the wire object's
message/code/data; for a non-null id, consume and reject the matching
pending entry, or throw `UnexpectedResponse`; for a null id, throw the
`RPCError` itself. -/
def handleError (st : PeerState) (id : Json) (errObj : Json) :
    PeerState × Option Fault :=
  let rpcErr := Fault.rpcError (jsField errObj "message") (jsField errObj "code")
    (jsField errObj "data")
  if id ≠ Json.null then
    match plookup st.pending id with
    | some rpcCall =>
        (settle { st with pending := pdelete st.pending id }
          rpcCall.handle (.rejected rpcErr), none)
    | none => (st, some (.unexpectedResponse id "error"))
  else
    (st, some rpcErr)

/-- A request handler's behavior: the settled result of the promise
`handleRequest` builds from it (a synchronous throw and a rejected
promise land in the same rejection path). -/
inductive ReqOutcome where
  | ok (value : Option Json)
  | errRpc (code : Rat) (message : String) (data : Option Json)
  | errOther (e : Fault)

def ReqHandler : Type := String → Option Json → ReqOutcome

def NotifHandler : Type := String → Option Json → Except Fault Unit

/-- `Peer.handleRequest` with the asynchronous continuation folded in: on
success push a Response; an `RPCError` becomes an Error response with the
request's id; any other failure becomes a generic internal-error response
plus an `emit('error')` with the original fault.  Without a handler, push
a METHOD_NOT_FOUND error. -/
def handleRequest (onRequest : Option ReqHandler) (st : PeerState) (id : Json)
    (method : String) (params : Option Json) : PeerState :=
  match onRequest with
  | some f =>
      match f method params with
      | .ok v =>
          match response id v with
          | some msg => pushMsg st msg
          | none => st
      | .errRpc code message data => pushErrObj st (some id) code message data
      | .errOther e =>
          let st₁ := pushErrObj st (some id) (-32603)
            "Internal error while processing request" none
          { st₁ with errorEvents := st₁.errorEvents ++ [e] }
  | none => pushErrObj st (some id) (-32601) "No request handler attached" none

/-- `Peer.handleNotification`: invoke the handler, letting any throw
propagate (second component) to `_write`'s catch. -/
def handleNotification (onNotif : Option NotifHandler) (st : PeerState)
    (method : String) (params : Option Json) : PeerState × Option Fault :=
  match onNotif with
  | some f =>
      match f method params with
      | .ok _ => (st, none)
      | .error e => (st, some e)
  | none => (st, none)

/-- A chunk written to the Peer's writable side: a `ParseError` instance
from the deserializer, or a structured value. -/
inductive Chunk where
  | parseErr (message : String) (data : Option Json)
  | value (v : Json)

/-- An exception escaping the `_write` dispatch is passed to the stream
callback, surfacing as an `'error'` event. -/
def reportThrown : PeerState × Option Fault → PeerState
  | (st, some f) => { st with errorEvents := st.errorEvents ++ [f] }
  | (st, none) => st

/-- `Peer._write`: forward a `ParseError` chunk as a PARSE_ERROR response;
parse anything else, answering an unparsable value with an
INVALID_REQUEST response carrying it as `badObject`; otherwise dispatch
on the message kind inside a try/catch whose catch feeds the callback. -/
def writeChunk (onRequest : Option ReqHandler) (onNotif : Option NotifHandler)
    (st : PeerState) (c : Chunk) : PeerState :=
  match c with
  | .parseErr message data =>
      let st₁ := { st with
        protocolErrorEvents := st.protocolErrorEvents ++ [.parseError message data] }
      pushErrObj st₁ none (-32700) message data
  | .value v =>
      match parse v with
      | none =>
          let st₁ := { st with
            protocolErrorEvents := st.protocolErrorEvents ++
              [.invalidRequest "Not a valid JSON-RPC object" v] }
          pushErrObj st₁ none (-32600) "Not a valid JSON-RPC object"
            (some (Json.obj [("badObject", v)]))
      | some (.request id method params) => handleRequest onRequest st id method params
      | some (.notification method params) =>
          reportThrown (handleNotification onNotif st method params)
      | some (.response id result) => reportThrown (handleResponse st id result)
      | some (.error id errObj) => reportThrown (handleError st id errObj)

/-- Every event that can touch a Peer's state. -/
inductive PEvent where
  | write (c : Chunk)
  | timerFires (t : Nat)
  | close
  | call (method : String) (params : Option Json) (timeout : Option Rat)
  | notify (method : String) (params : Option Json)
  | pushErr (id : Option Json) (code : Rat) (message : String) (data : Option Json)

/-- One step of the Peer's event loop. -/
def step (onRequest : Option ReqHandler) (onNotif : Option NotifHandler)
    (st : PeerState) (e : PEvent) : PeerState :=
  match e with
  | .write c => writeChunk onRequest onNotif st c
  | .timerFires t => fireTimer st t
  | .close => onend st
  | .call method params timeout => (callMethod st method params timeout).state
  | .notify method params => sendNotification st method params
  | .pushErr id code message data => (pushError st id code message data).getD st

/-! ### Supporting lemmas -/

theorem plookup_pdelete_self (l : List (Json × PendingRequest)) (id : Json) :
    plookup (pdelete l id) id = none := by
  induction l with
  | nil => rfl
  | cons kv rest ih =>
      obtain ⟨k, v⟩ := kv
      by_cases h : k = id <;> simp [pdelete, plookup, h, ih]

theorem plookup_pdelete_ne (l : List (Json × PendingRequest)) (id id' : Json)
    (h : id' ≠ id) : plookup (pdelete l id) id' = plookup l id' := by
  induction l with
  | nil => rfl
  | cons kv rest ih =>
      obtain ⟨k, v⟩ := kv
      by_cases hk : k = id
      · subst hk
        have hne : k ≠ id' := fun e => h e.symm
        simp [pdelete, plookup, ih, hne]
      · by_cases hk' : k = id' <;>
          simp [pdelete, plookup, hk, hk', h, ih]

theorem plookup_append_right (l : List (Json × PendingRequest)) (id : Json)
    (pr : PendingRequest) (h : plookup l id = none) :
    plookup (l ++ [(id, pr)]) id = some pr := by
  induction l with
  | nil => simp [plookup]
  | cons kv rest ih =>
      obtain ⟨k, v⟩ := kv
      by_cases hk : k = id
      · simp [plookup, hk] at h
      · simp [plookup, hk] at h ⊢
        exact ih h

theorem settle_pending (st : PeerState) (h : Nat) (o : Outcome) :
    (settle st h o).pending = st.pending := by
  unfold settle; split <;> rfl

theorem settle_ended (st : PeerState) (h : Nat) (o : Outcome) :
    (settle st h o).ended = st.ended := by
  unfold settle; split <;> rfl

theorem settle_iter (st : PeerState) (h : Nat) (o : Outcome) :
    (settle st h o).iter = st.iter := by
  unfold settle; split <;> rfl

theorem settle_outbox (st : PeerState) (h : Nat) (o : Outcome) :
    (settle st h o).outbox = st.outbox := by
  unfold settle; split <;> rfl

theorem settle_protocolErrorEvents (st : PeerState) (h : Nat) (o : Outcome) :
    (settle st h o).protocolErrorEvents = st.protocolErrorEvents := by
  unfold settle; split <;> rfl

theorem settle_errorEvents (st : PeerState) (h : Nat) (o : Outcome) :
    (settle st h o).errorEvents = st.errorEvents := by
  unfold settle; split <;> rfl

/-- A settled promise handle keeps its outcome through any further
settlement attempt (JS promises settle at most once). -/
theorem settle_stable (st : PeerState) (hT : Nat) (o' : Outcome) (h : Nat)
    (o : Outcome) (hs : st.handles[h]? = some (some o)) :
    (settle st hT o').handles[h]? = some (some o) := by
  unfold settle
  split
  next heq =>
    by_cases hne : hT = h
    · subst hne; rw [heq] at hs; cases hs
    · simpa [List.getElem?_set_ne hne] using hs
  next => exact hs

/-- Settling an unsettled handle records the outcome. -/
theorem settle_sets (st : PeerState) (h : Nat) (o : Outcome)
    (hu : st.handles[h]? = some none) :
    (settle st h o).handles[h]? = some (some o) := by
  have hlt : h < st.handles.length := (List.getElem?_eq_some.mp hu).choose
  unfold settle
  rw [hu]
  simpa using List.getElem?_set_eq_of_lt (some o) hlt

/-- Settling one handle leaves every other handle unchanged. -/
theorem settle_handles_ne (st : PeerState) (hT : Nat) (o : Outcome) (h : Nat)
    (hne : hT ≠ h) : (settle st hT o).handles[h]? = st.handles[h]? := by
  unfold settle
  split
  next => exact List.getElem?_set_ne hne
  next => rfl

theorem pushMsg_handles (st : PeerState) (m : Json) :
    (pushMsg st m).handles = st.handles := rfl

theorem pushErrObj_handles (st : PeerState) (id : Option Json) (code : Rat)
    (message : String) (data : Option Json) :
    (pushErrObj st id code message data).handles = st.handles := by
  unfold pushErrObj pushError
  cases error id code message data <;> rfl

theorem pushErrObj_pending (st : PeerState) (id : Option Json) (code : Rat)
    (message : String) (data : Option Json) :
    (pushErrObj st id code message data).pending = st.pending := by
  unfold pushErrObj pushError
  cases error id code message data <;> rfl

theorem pushErrObj_ended (st : PeerState) (id : Option Json) (code : Rat)
    (message : String) (data : Option Json) :
    (pushErrObj st id code message data).ended = st.ended := by
  unfold pushErrObj pushError
  cases error id code message data <;> rfl

theorem pushErrObj_errorEvents (st : PeerState) (id : Option Json) (code : Rat)
    (message : String) (data : Option Json) :
    (pushErrObj st id code message data).errorEvents = st.errorEvents := by
  unfold pushErrObj pushError
  cases error id code message data <;> rfl

theorem pushErrObj_timers (st : PeerState) (id : Option Json) (code : Rat)
    (message : String) (data : Option Json) :
    (pushErrObj st id code message data).timers = st.timers := by
  unfold pushErrObj pushError
  cases error id code message data <;> rfl

/-- Every timer whose continuation is attached to handle `h` is inactive. -/
def timersClearedFor (h : Nat) (l : List Timer) : Prop :=
  ∀ tm ∈ l, tm.handle = h → tm.active = false

theorem clearTimersFor_clears (h : Nat) (l : List Timer) :
    timersClearedFor h (clearTimersFor h l) := by
  intro tm hmem hh
  rcases List.mem_map.mp hmem with ⟨tm₀, _, rfl⟩
  by_cases ht : tm₀.handle == h
  · simp [ht]
  · simp only [ht, if_neg, Bool.false_eq_true, not_false_eq_true, if_false] at hh ⊢
    exact absurd (by simpa using hh) (by simpa using ht)

theorem clearTimersFor_preserves (h h' : Nat) (l : List Timer)
    (hc : timersClearedFor h l) : timersClearedFor h (clearTimersFor h' l) := by
  intro tm hmem hh
  rcases List.mem_map.mp hmem with ⟨tm₀, hmem₀, rfl⟩
  by_cases ht : tm₀.handle == h'
  · simp [ht]
  · simp only [ht, Bool.false_eq_true, if_false] at hh ⊢
    exact hc tm₀ hmem₀ hh

theorem settle_timersCleared (st : PeerState) (hT : Nat) (o : Outcome)
    (h : Nat) (hc : timersClearedFor h st.timers) :
    timersClearedFor h (settle st hT o).timers := by
  unfold settle
  split
  next => exact clearTimersFor_preserves h hT st.timers hc
  next => exact hc

/-- Settling an unsettled handle runs the `clearTimeout` continuations
attached to it. -/
theorem settle_clears_own (st : PeerState) (h : Nat) (o : Outcome)
    (hu : st.handles[h]? = some none) :
    timersClearedFor h (settle st h o).timers := by
  unfold settle
  rw [hu]
  exact clearTimersFor_clears h st.timers

/-- The rejection loop of `onend`, as a reusable abbreviation. -/
def rejectAll (l : List (Json × PendingRequest)) (st : PeerState) : PeerState :=
  l.foldl
    (fun acc kv => settle acc kv.2.handle (.rejected (.rpcStreamClosed kv.2.method)))
    st

theorem onend_eq (st : PeerState) :
    onend st = { rejectAll st.pending { st with ended := true } with pending := [] } :=
  rfl

theorem rejectAll_stable (l : List (Json × PendingRequest)) (st : PeerState)
    (h : Nat) (o : Outcome) (hs : st.handles[h]? = some (some o)) :
    (rejectAll l st).handles[h]? = some (some o) := by
  induction l generalizing st with
  | nil => exact hs
  | cons kv rest ih => exact ih _ (settle_stable st kv.2.handle _ h o hs)

theorem rejectAll_ended (l : List (Json × PendingRequest)) (st : PeerState) :
    (rejectAll l st).ended = st.ended := by
  induction l generalizing st with
  | nil => rfl
  | cons kv rest ih => rw [rejectAll, List.foldl_cons, ← rejectAll, ih, settle_ended]

theorem rejectAll_outbox (l : List (Json × PendingRequest)) (st : PeerState) :
    (rejectAll l st).outbox = st.outbox := by
  induction l generalizing st with
  | nil => rfl
  | cons kv rest ih => rw [rejectAll, List.foldl_cons, ← rejectAll, ih, settle_outbox]

theorem rejectAll_errorEvents (l : List (Json × PendingRequest)) (st : PeerState) :
    (rejectAll l st).errorEvents = st.errorEvents := by
  induction l generalizing st with
  | nil => rfl
  | cons kv rest ih => rw [rejectAll, List.foldl_cons, ← rejectAll, ih, settle_errorEvents]

theorem rejectAll_timersCleared (l : List (Json × PendingRequest))
    (st : PeerState) (h : Nat) (hc : timersClearedFor h st.timers) :
    timersClearedFor h (rejectAll l st).timers := by
  induction l generalizing st with
  | nil => exact hc
  | cons kv rest ih => exact ih _ (settle_timersCleared st kv.2.handle _ h hc)

/-- `onend` rejects every pending entry whose handle is still unsettled
with `RPCStreamClosed`; distinct entries hold distinct handles (as in any
reachable state, where each `callMethod` allocates a fresh handle). -/
theorem rejectAll_rejects (l : List (Json × PendingRequest)) (st : PeerState)
    (id : Json) (pr : PendingRequest) (hmem : (id, pr) ∈ l)
    (hnd : (l.map (fun kv => kv.2.handle)).Nodup)
    (hu : st.handles[pr.handle]? = some none) :
    (rejectAll l st).handles[pr.handle]? =
      some (some (.rejected (.rpcStreamClosed pr.method))) := by
  induction l generalizing st with
  | nil => cases hmem
  | cons kv rest ih =>
      rcases List.mem_cons.mp hmem with heq | hmem'
      · subst heq
        exact rejectAll_stable rest _ pr.handle _ (settle_sets st pr.handle _ hu)
      · have hne : kv.2.handle ≠ pr.handle := by
          intro e
          exact (List.nodup_cons.mp hnd).1
            (List.mem_map.mpr ⟨(id, pr), hmem', e.symm⟩)
        have hu' : (settle st kv.2.handle
            (.rejected (.rpcStreamClosed kv.2.method))).handles[pr.handle]? =
            some none := by
          rw [settle_handles_ne st kv.2.handle _ pr.handle hne]; exact hu
        exact ih _ hmem' (List.nodup_cons.mp hnd).2 hu'

/-- After `onend`, the timers of every pending call whose handle was still
unsettled have been cleared. -/
theorem rejectAll_clears (l : List (Json × PendingRequest)) (st : PeerState)
    (id : Json) (pr : PendingRequest) (hmem : (id, pr) ∈ l)
    (hu : st.handles[pr.handle]? = some none) :
    timersClearedFor pr.handle (rejectAll l st).timers := by
  induction l generalizing st with
  | nil => cases hmem
  | cons kv rest ih =>
      by_cases hh : kv.2.handle = pr.handle
      · have h₁ : timersClearedFor pr.handle
            (settle st kv.2.handle
              (.rejected (.rpcStreamClosed kv.2.method))).timers := by
          rw [hh]
          exact settle_clears_own st pr.handle _ hu
        exact rejectAll_timersCleared rest _ pr.handle h₁
      · have hmem' : (id, pr) ∈ rest := by
          rcases List.mem_cons.mp hmem with heq | hmem'
          · exact absurd (congrArg (fun kv => kv.2.handle) heq.symm) hh
          · exact hmem'
        have hu' : (settle st kv.2.handle
            (.rejected (.rpcStreamClosed kv.2.method))).handles[pr.handle]? =
            some none := by
          rw [settle_handles_ne st kv.2.handle _ pr.handle hh]; exact hu
        exact ih _ hmem' hu'

theorem reportThrown_handles (p : PeerState × Option Fault) :
    (reportThrown p).handles = p.1.handles := by
  obtain ⟨st, f⟩ := p
  cases f <;> rfl

theorem reportThrown_pending (p : PeerState × Option Fault) :
    (reportThrown p).pending = p.1.pending := by
  obtain ⟨st, f⟩ := p
  cases f <;> rfl

theorem reportThrown_outbox (p : PeerState × Option Fault) :
    (reportThrown p).outbox = p.1.outbox := by
  obtain ⟨st, f⟩ := p
  cases f <;> rfl

theorem handleResponse_stable (st : PeerState) (id r : Json) (h : Nat)
    (o : Outcome) (hs : st.handles[h]? = some (some o)) :
    (handleResponse st id r).1.handles[h]? = some (some o) := by
  unfold handleResponse
  cases hp : plookup st.pending id with
  | some pr => exact settle_stable _ pr.handle _ h o hs
  | none => exact hs

theorem handleError_stable (st : PeerState) (id e : Json) (h : Nat)
    (o : Outcome) (hs : st.handles[h]? = some (some o)) :
    (handleError st id e).1.handles[h]? = some (some o) := by
  unfold handleError
  split
  next =>
    cases hp : plookup st.pending id with
    | some pr => exact settle_stable _ pr.handle _ h o hs
    | none => exact hs
  next => exact hs

theorem handleRequest_handles (onReq : Option ReqHandler) (st : PeerState)
    (id : Json) (m : String) (p : Option Json) :
    (handleRequest onReq st id m p).handles = st.handles := by
  cases onReq with
  | none =>
      simp only [handleRequest]
      exact pushErrObj_handles st _ _ _ _
  | some f =>
      cases hf : f m p with
      | ok v =>
          cases hr : response id v with
          | some msg => simp only [handleRequest, hf, hr, pushMsg_handles]
          | none => simp only [handleRequest, hf, hr]
      | errRpc code msg d =>
          simp only [handleRequest, hf]
          exact pushErrObj_handles st _ _ _ _
      | errOther e =>
          simp only [handleRequest, hf, pushErrObj_handles]

theorem handleNotification_state (onNotif : Option NotifHandler)
    (st : PeerState) (m : String) (p : Option Json) :
    (handleNotification onNotif st m p).1 = st := by
  cases onNotif with
  | none => simp only [handleNotification]
  | some f =>
      cases hf : f m p with
      | ok a => simp only [handleNotification, hf]
      | error e => simp only [handleNotification, hf]

theorem writeChunk_stable (onReq : Option ReqHandler)
    (onNotif : Option NotifHandler) (st : PeerState) (c : Chunk) (h : Nat)
    (o : Outcome) (hs : st.handles[h]? = some (some o)) :
    (writeChunk onReq onNotif st c).handles[h]? = some (some o) := by
  cases c with
  | parseErr msg d =>
      simp only [writeChunk, pushErrObj_handles]
      exact hs
  | value v =>
      cases hp : parse v with
      | none =>
          simp only [writeChunk, hp, pushErrObj_handles]
          exact hs
      | some m =>
          cases m with
          | request id method params =>
              simp only [writeChunk, hp, handleRequest_handles]
              exact hs
          | notification method params =>
              simp only [writeChunk, hp, reportThrown_handles,
                handleNotification_state]
              exact hs
          | response id r =>
              simp only [writeChunk, hp, reportThrown_handles]
              exact handleResponse_stable st id r h o hs
          | error id e =>
              simp only [writeChunk, hp, reportThrown_handles]
              exact handleError_stable st id e h o hs

theorem appendHandle_stable (l : List (Option Outcome)) (x : Option Outcome)
    (h : Nat) (o : Outcome) (hs : l[h]? = some (some o)) :
    (l ++ [x])[h]? = some (some o) := by
  rw [List.getElem?_append_left (List.getElem?_eq_some.mp hs).choose]
  exact hs

theorem callMethod_stable (st : PeerState) (m : String) (p : Option Json)
    (tmo : Option Rat) (h : Nat) (o : Outcome)
    (hs : st.handles[h]? = some (some o)) :
    (callMethod st m p tmo).state.handles[h]? = some (some o) := by
  cases hend : st.ended with
  | true =>
      simp only [callMethod, hend, if_true, CallResult.state]
      exact appendHandle_stable st.handles _ h o hs
  | false =>
      cases hit : st.iter with
      | nil =>
          simp [callMethod, hend, hit, CallResult.state]
          exact hs
      | cons id rest =>
          cases hcol : (plookup st.pending id).isSome with
          | true =>
              simp [callMethod, hend, hit, hcol, CallResult.state]
              exact hs
          | false =>
              cases hreq : request id m p with
              | none =>
                  simp [callMethod, hend, hit, hcol, hreq, CallResult.state]
                  exact appendHandle_stable st.handles _ h o hs
              | some req =>
                  cases tmo with
                  | none =>
                      simp [callMethod, hend, hit, hcol, hreq,
                        CallResult.state, pushMsg]
                      exact appendHandle_stable st.handles _ h o hs
                  | some d =>
                      simp [callMethod, hend, hit, hcol, hreq,
                        CallResult.state, pushMsg]
                      exact appendHandle_stable st.handles _ h o hs

theorem fireTimer_stable (st : PeerState) (t : Nat) (h : Nat) (o : Outcome)
    (hs : st.handles[h]? = some (some o)) :
    (fireTimer st t).handles[h]? = some (some o) := by
  cases htm : st.timers[t]? with
  | none => simp only [fireTimer, htm]; exact hs
  | some tm =>
      cases hA : tm.active with
      | false =>
          simp [fireTimer, htm, hA]
          exact hs
      | true =>
          simp only [fireTimer, htm, hA, if_true]
          exact settle_stable st tm.handle _ h o hs

theorem onend_stable (st : PeerState) (h : Nat) (o : Outcome)
    (hs : st.handles[h]? = some (some o)) :
    (onend st).handles[h]? = some (some o) := by
  rw [onend_eq]
  exact rejectAll_stable st.pending _ h o hs

/-- At-most-once settlement across the whole system: no event can change
the outcome of a settled call handle. -/
theorem step_stable (onReq : Option ReqHandler) (onNotif : Option NotifHandler)
    (st : PeerState) (e : PEvent) (h : Nat) (o : Outcome)
    (hs : st.handles[h]? = some (some o)) :
    (step onReq onNotif st e).handles[h]? = some (some o) := by
  cases e with
  | write c => exact writeChunk_stable onReq onNotif st c h o hs
  | timerFires t => exact fireTimer_stable st t h o hs
  | close => exact onend_stable st h o hs
  | call m p tmo => exact callMethod_stable st m p tmo h o hs
  | notify m p => exact hs
  | pushErr id code msg d =>
      cases he : error id code msg d with
      | none =>
          have hn : pushError st id code msg d = none := by
            simp [pushError, he]
          simp only [step, hn, Option.getD_none]
          exact hs
      | some e =>
          have hsm : pushError st id code msg d = some (pushMsg st e) := by
            simp [pushError, he]
          simp only [step, hsm, Option.getD_some]
          exact hs

theorem reportThrown_none (st : PeerState) : reportThrown (st, none) = st := rfl

theorem reportThrown_some (st : PeerState) (f : Fault) :
    reportThrown (st, some f) = { st with errorEvents := st.errorEvents ++ [f] } :=
  rfl

theorem writeChunk_response (onReq : Option ReqHandler)
    (onNotif : Option NotifHandler) (st : PeerState) (v id r : Json)
    (hp : parse v = some (.response id r)) :
    writeChunk onReq onNotif st (.value v) = reportThrown (handleResponse st id r) := by
  simp only [writeChunk, hp]

theorem writeChunk_error (onReq : Option ReqHandler)
    (onNotif : Option NotifHandler) (st : PeerState) (v id e : Json)
    (hp : parse v = some (.error id e)) :
    writeChunk onReq onNotif st (.value v) = reportThrown (handleError st id e) := by
  simp only [writeChunk, hp]

theorem writeChunk_notif (onReq : Option ReqHandler)
    (onNotif : Option NotifHandler) (st : PeerState) (v : Json) (m : String)
    (p : Option Json) (hp : parse v = some (.notification m p)) :
    writeChunk onReq onNotif st (.value v) =
      reportThrown (handleNotification onNotif st m p) := by
  simp only [writeChunk, hp]

theorem writeChunk_parseFail (onReq : Option ReqHandler)
    (onNotif : Option NotifHandler) (st : PeerState) (v : Json)
    (hp : parse v = none) :
    writeChunk onReq onNotif st (.value v) =
      pushErrObj
        { st with protocolErrorEvents := st.protocolErrorEvents ++
            [.invalidRequest "Not a valid JSON-RPC object" v] }
        none (-32600) "Not a valid JSON-RPC object"
        (some (Json.obj [("badObject", v)])) := by
  simp only [writeChunk, hp]

theorem writeChunk_parseErr (onReq : Option ReqHandler)
    (onNotif : Option NotifHandler) (st : PeerState) (message : String)
    (data : Option Json) :
    writeChunk onReq onNotif st (.parseErr message data) =
      pushErrObj
        { st with protocolErrorEvents := st.protocolErrorEvents ++
            [.parseError message data] }
        none (-32700) message data := by
  simp only [writeChunk]

theorem handleResponse_found (st : PeerState) (id r : Json)
    (pr : PendingRequest) (hl : plookup st.pending id = some pr) :
    handleResponse st id r =
      (settle { st with pending := pdelete st.pending id } pr.handle
        (.resolved r), none) := by
  simp only [handleResponse, hl]

theorem handleResponse_missing (st : PeerState) (id r : Json)
    (hl : plookup st.pending id = none) :
    handleResponse st id r = (st, some (.unexpectedResponse id "response")) := by
  simp only [handleResponse, hl]

theorem handleError_found (st : PeerState) (id e : Json) (pr : PendingRequest)
    (hnn : id ≠ Json.null) (hl : plookup st.pending id = some pr) :
    handleError st id e =
      (settle { st with pending := pdelete st.pending id } pr.handle
        (.rejected (.rpcError (jsField e "message") (jsField e "code")
          (jsField e "data"))), none) := by
  simp only [handleError, hnn, hl, if_true, ne_eq, not_false_eq_true]

theorem handleError_missing (st : PeerState) (id e : Json)
    (hnn : id ≠ Json.null) (hl : plookup st.pending id = none) :
    handleError st id e = (st, some (.unexpectedResponse id "error")) := by
  simp only [handleError, hnn, hl, if_true, ne_eq, not_false_eq_true]

theorem handleError_nullId (st : PeerState) (e : Json) :
    handleError st Json.null e =
      (st, some (.rpcError (jsField e "message") (jsField e "code")
        (jsField e "data"))) := by
  simp only [handleError, ne_eq, not_true_eq_false, if_false, reduceIte]

/-! ### Claim C9: the default id generator -/

theorem NumericIdIterator.next_of_ne (s : Int) (h : s ≠ MAX_SAFE_INTEGER) :
    NumericIdIterator.next s = (s, s + 1) := by
  simp [NumericIdIterator.next, h]

theorem NumericIdIterator.pulls_eq_range (n : Nat) : ∀ s : Int,
    s + n ≤ MAX_SAFE_INTEGER + 1 →
    NumericIdIterator.pulls s n = (List.range n).map (fun i : Nat => s + (i : Int)) := by
  induction n with
  | zero => intro s _; rfl
  | succ k ih =>
      intro s hs
      by_cases hmax : s = MAX_SAFE_INTEGER
      · have hk : k = 0 := by omega
        subst hk
        subst hmax
        simp [NumericIdIterator.pulls, NumericIdIterator.next, List.range_succ]
      · rw [NumericIdIterator.pulls, NumericIdIterator.next_of_ne s hmax]
        have hs' : (s + 1) + (k : Int) ≤ MAX_SAFE_INTEGER + 1 := by
          push_cast at hs
          omega
        rw [ih (s + 1) hs']
        rw [List.range_succ_eq_map, List.map_cons, List.map_map]
        have hfun : ((fun i : Nat => s + (i : Int)) ∘ Nat.succ) =
            fun i : Nat => (s + 1) + (i : Int) := by
          funext i
          simp only [Function.comp_apply]
          push_cast
          ring
        rw [hfun]
        simp

theorem NumericIdIterator.pulls_nodup (s : Int) (n : Nat)
    (hs : s + n ≤ MAX_SAFE_INTEGER + 1) :
    (NumericIdIterator.pulls s n).Nodup := by
  rw [NumericIdIterator.pulls_eq_range n s hs]
  exact (List.nodup_range n).map (fun a b hab => by omega)

/-- **C9**: the default id generator rejects a non-integer or out-of-range
starting value at construction time and otherwise stores it; each pull
yields the current value and increments by 1, except that a pull at
`MAX_SAFE_INTEGER` wraps the state to `MIN_SAFE_INTEGER`; and `n` pulls
from a valid start yield `n` distinct values as long as `n` does not
exceed the distance from the start to the wraparound point. -/
theorem numericIdIterator_behavior :
    (∀ v : Rat, NumericIdIterator.build v = none ↔
        (v.den ≠ 1 ∨ (MAX_SAFE_INTEGER : Rat) < v ∨ v < (MIN_SAFE_INTEGER : Rat))) ∧
    (∀ v : Rat, v.den = 1 → (MIN_SAFE_INTEGER : Rat) ≤ v →
        v ≤ (MAX_SAFE_INTEGER : Rat) → NumericIdIterator.build v = some v.num) ∧
    (∀ s : Int, s ≠ MAX_SAFE_INTEGER → NumericIdIterator.next s = (s, s + 1)) ∧
    NumericIdIterator.next MAX_SAFE_INTEGER = (MAX_SAFE_INTEGER, MIN_SAFE_INTEGER) ∧
    (∀ (s : Int) (n : Nat), s + n ≤ MAX_SAFE_INTEGER + 1 →
        NumericIdIterator.pulls s n = (List.range n).map (fun i : Nat => s + (i : Int)) ∧
        (NumericIdIterator.pulls s n).Nodup) := by
  refine ⟨?_, ?_, NumericIdIterator.next_of_ne, by simp [NumericIdIterator.next],
    fun s n hs => ⟨NumericIdIterator.pulls_eq_range n s hs,
      NumericIdIterator.pulls_nodup s n hs⟩⟩
  · intro v
    unfold NumericIdIterator.build
    split
    next hcond =>
      simp only [Bool.or_eq_true, bne_iff_ne, ne_eq, decide_eq_true_eq,
        gt_iff_lt] at hcond
      exact iff_of_true rfl (by tauto)
    next hcond =>
      simp only [Bool.or_eq_true, bne_iff_ne, ne_eq, decide_eq_true_eq,
        gt_iff_lt] at hcond
      push_neg at hcond
      refine iff_of_false (by simp) ?_
      push_neg
      refine ⟨?_, ?_, ?_⟩
      · exact hcond.1.1
      · exact hcond.1.2
      · exact hcond.2
  · intro v hden hlo hhi
    unfold NumericIdIterator.build
    rw [if_neg]
    simp only [Bool.or_eq_true, bne_iff_ne, ne_eq, decide_eq_true_eq, gt_iff_lt]
    push_neg
    exact ⟨⟨hden, hhi⟩, hlo⟩

/-- Witness for C9 at concrete inputs. -/
theorem numericIdIterator_behavior_witness :
    ((5 : Int) ≠ MAX_SAFE_INTEGER ∧ NumericIdIterator.next 5 = (5, 6)) ∧
    ((5 : Int) + (3 : Nat) ≤ MAX_SAFE_INTEGER + 1 ∧
      NumericIdIterator.pulls 5 3 = (List.range 3).map (fun i : Nat => 5 + (i : Int)) ∧
      (NumericIdIterator.pulls 5 3).Nodup) ∧
    ((1 : Rat).den = 1 ∧ (MIN_SAFE_INTEGER : Rat) ≤ 1 ∧ (1 : Rat) ≤ (MAX_SAFE_INTEGER : Rat) ∧
      NumericIdIterator.build 1 = some (1 : Rat).num) :=
  ⟨⟨by decide, numericIdIterator_behavior.2.2.1 5 (by decide)⟩,
    ⟨by decide,
      (numericIdIterator_behavior.2.2.2.2 5 3 (by decide)).1,
      (numericIdIterator_behavior.2.2.2.2 5 3 (by decide)).2⟩,
    ⟨by decide, by decide, by decide,
      numericIdIterator_behavior.2.1 1 (by decide) (by decide) (by decide)⟩⟩

/-! ### Claim C6: typesafe dispatch -/

/-- The diagnostics of a failed decode (the dispatch loop only reads this
on failures). -/
def errsOf {V : Type} : Except (List String) V → List String
  | .error e => e
  | .ok _ => []

theorem tryHandlers_allFail {V R : Type} (method : String) (params : Option Json)
    (hs : List (TypedHandlerFn V R)) : ∀ (acc : List (List String)),
    (∀ h ∈ hs, ∃ e, h.paramsType params = .error e) →
    tryHandlers method params hs acc =
      .error (.invalidParams ("Invalid parameters for method " ++ method)
        (acc ++ hs.map (fun h => errsOf (h.paramsType params)))) := by
  induction hs with
  | nil => intro acc _; simp [tryHandlers]
  | cons h rest ih =>
      intro acc hall
      obtain ⟨e, he⟩ := hall h (List.mem_cons_self h rest)
      simp only [tryHandlers, he]
      rw [ih (acc ++ [e]) (fun h' hm => hall h' (List.mem_cons_of_mem h hm))]
      simp [errsOf, he]

theorem tryHandlers_firstOk {V R : Type} (method : String) (params : Option Json)
    (pre : List (TypedHandlerFn V R)) : ∀ (acc : List (List String))
    (h : TypedHandlerFn V R) (post : List (TypedHandlerFn V R)) (v : V),
    (∀ h' ∈ pre, ∃ e, h'.paramsType params = .error e) →
    h.paramsType params = .ok v →
    tryHandlers method params (pre ++ h :: post) acc = .ok (h.fn v) := by
  induction pre with
  | nil =>
      intro acc h post v _ hok
      simp only [List.nil_append, tryHandlers, hok]
  | cons h₀ rest ih =>
      intro acc h post v hall hok
      obtain ⟨e, he⟩ := hall h₀ (List.mem_cons_self _ _)
      simp only [List.cons_append, tryHandlers, he]
      exact ih _ h post v (fun h' hm => hall h' (List.mem_cons_of_mem _ hm)) hok

theorem hlookup_insertHandler_self {V R : Type} (d : HandlerMap V R)
    (name : String) (h : TypedHandlerFn V R) :
    hlookup (insertHandler d name h) name =
      some ((hlookup d name).getD [] ++ [h]) := by
  induction d with
  | nil => simp [insertHandler, hlookup]
  | cons kv rest ih =>
      obtain ⟨k, hs⟩ := kv
      by_cases hk : k = name
      · simp [insertHandler, hlookup, hk]
      · simp [insertHandler, hlookup, hk, ih]

/-- **C6**: `onRequest` fails with `MethodNotFound` when no handler list is
registered for the method; otherwise the handlers are tried in list
order (which `register` makes registration order, appending each new
handler), the first whose parameter shape decodes the params is invoked
with the decoded value and its result returned, and if every handler's
shape rejects the params the call fails with `InvalidParams` carrying the
accumulated diagnostics of every attempted handler. -/
theorem dispatcher_resolveRequest {V R : Type} :
    (∀ (d : HandlerMap V R) (method : String) (params : Option Json),
      hlookup d method = none →
      onRequestDispatch d method params =
        .error (.methodNotFound ("No such method: '" ++ method ++ "'"))) ∧
    (∀ (d : HandlerMap V R) (method : String) (params : Option Json)
        (pre post : List (TypedHandlerFn V R)) (h : TypedHandlerFn V R) (v : V),
      hlookup d method = some (pre ++ h :: post) →
      (∀ h' ∈ pre, ∃ e, h'.paramsType params = .error e) →
      h.paramsType params = .ok v →
      onRequestDispatch d method params = .ok (h.fn v)) ∧
    (∀ (d : HandlerMap V R) (method : String) (params : Option Json)
        (handlers : List (TypedHandlerFn V R)),
      hlookup d method = some handlers →
      (∀ h ∈ handlers, ∃ e, h.paramsType params = .error e) →
      onRequestDispatch d method params =
        .error (.invalidParams ("Invalid parameters for method " ++ method)
          (handlers.map (fun h => errsOf (h.paramsType params))))) ∧
    (∀ (d : HandlerMap V R) (name : String) (h : TypedHandlerFn V R),
      hlookup (insertHandler d name h) name =
        some ((hlookup d name).getD [] ++ [h])) := by
  refine ⟨?_, ?_, ?_, hlookup_insertHandler_self⟩
  · intro d method params hnone
    simp only [onRequestDispatch, hnone]
  · intro d method params pre post h v hfound hall hok
    simp only [onRequestDispatch, hfound]
    exact tryHandlers_firstOk method params pre [] h post v hall hok
  · intro d method params handlers hfound hall
    simp only [onRequestDispatch, hfound]
    rw [tryHandlers_allFail method params handlers [] hall]
    simp

/-- A concrete dispatcher for the C6 witness: an overloaded method whose
first overload takes a one-element array and whose second takes an
object. -/
def unaryHandler : TypedHandlerFn Json Json :=
  ⟨fun p =>
    match p with
    | some (.arr [x]) => .ok x
    | _ => .error ["expected a one-element array"],
   fun v => v⟩

def objectHandler : TypedHandlerFn Json Json :=
  ⟨fun p =>
    match p with
    | some (.obj fs) => .ok (.obj fs)
    | _ => .error ["expected an object"],
   fun _ => .str "object overload"⟩

def sampleDispatcher : HandlerMap Json Json := [("foo", [unaryHandler, objectHandler])]

/-- Witness for C6 at a concrete dispatcher. -/
theorem dispatcher_resolveRequest_witness :
    (hlookup sampleDispatcher "nope" = none ∧
      onRequestDispatch sampleDispatcher "nope" none =
        .error (.methodNotFound "No such method: 'nope'")) ∧
    (onRequestDispatch sampleDispatcher "foo" (some (.obj [])) =
      .ok (.str "object overload")) ∧
    (onRequestDispatch sampleDispatcher "foo" (some (.num 1)) =
      .error (.invalidParams "Invalid parameters for method foo"
        [["expected a one-element array"], ["expected an object"]])) ∧
    hlookup (insertHandler sampleDispatcher "foo" unaryHandler) "foo" =
      some ([unaryHandler, objectHandler] ++ [unaryHandler]) := by
  refine ⟨⟨rfl, dispatcher_resolveRequest.1 sampleDispatcher "nope" none rfl⟩,
    ?_, ?_, dispatcher_resolveRequest.2.2.2 sampleDispatcher "foo" unaryHandler⟩
  · exact dispatcher_resolveRequest.2.1 sampleDispatcher "foo" (some (.obj []))
      [unaryHandler] [] objectHandler (.obj [])
      rfl
      (by
        intro h' hm
        simp only [List.mem_singleton] at hm
        exact ⟨["expected a one-element array"], by rw [hm]; rfl⟩)
      rfl
  · exact dispatcher_resolveRequest.2.2.1 sampleDispatcher "foo" (some (.num 1))
      [unaryHandler, objectHandler]
      rfl
      (by
        intro h' hm
        rcases List.mem_cons.mp hm with h1 | hm'
        · exact ⟨["expected a one-element array"], by rw [h1]; rfl⟩
        · rcases List.mem_cons.mp hm' with h2 | hn
          · exact ⟨["expected an object"], by rw [h2]; rfl⟩
          · cases hn)

/-! ### Claim C8: round-trip and classification of the message model -/

theorem Some_is_true (q : Json) : Some_is q = true := by
  cases q <;> rfl

theorem RequestJSON_is_method (v : Json) (h : RequestJSON_is v = true) :
    ∃ s, jsField v "method" = some (.str s) := by
  cases hm : jsField v "method" with
  | none => simp [RequestJSON_is, fieldIsString, hm] at h
  | some w =>
      cases w
      case str s => exact ⟨s, rfl⟩
      all_goals simp [RequestJSON_is, fieldIsString, hm] at h

theorem RequestJSON_is_id (v : Json) (h : RequestJSON_is v = true) :
    ∃ i, jsField v "id" = some i := by
  cases hi : jsField v "id" with
  | none => simp [RequestJSON_is, hi] at h
  | some i => exact ⟨i, rfl⟩

theorem NotificationJSON_is_method (v : Json) (h : NotificationJSON_is v = true) :
    ∃ s, jsField v "method" = some (.str s) := by
  cases hm : jsField v "method" with
  | none => simp [NotificationJSON_is, fieldIsString, hm] at h
  | some w =>
      cases w
      case str s => exact ⟨s, rfl⟩
      all_goals simp [NotificationJSON_is, fieldIsString, hm] at h

theorem ResponseJSON_is_id (v : Json) (h : ResponseJSON_is v = true) :
    ∃ i, jsField v "id" = some i := by
  cases hi : jsField v "id" with
  | none => simp [ResponseJSON_is, hi] at h
  | some i => exact ⟨i, rfl⟩

theorem ResponseJSON_is_result (v : Json) (h : ResponseJSON_is v = true) :
    ∃ r, jsField v "result" = some r := by
  cases hr : jsField v "result" with
  | none => simp [ResponseJSON_is, hr] at h
  | some r => exact ⟨r, rfl⟩

theorem ErrorJSON_is_id (v : Json) (h : ErrorJSON_is v = true) :
    ∃ i, jsField v "id" = some i := by
  cases hi : jsField v "id" with
  | none => simp [ErrorJSON_is, hi] at h
  | some i => exact ⟨i, rfl⟩

theorem ErrorJSON_is_error (v : Json) (h : ErrorJSON_is v = true) :
    ∃ e, jsField v "error" = some e := by
  cases he : jsField v "error" with
  | none => simp [ErrorJSON_is, he] at h
  | some e => exact ⟨e, rfl⟩

/-- **C8**: every value built by `request`/`notification`/`response`/`error`
from valid arguments parses back to the corresponding message with the
same fields; classification tries Request, Notification, Response, Error
in this fixed order and succeeds on the first structural match; and a
value matching none of the four shapes makes `parse` fail. -/
theorem parse_build_roundtrip :
    (∀ (id : Json) (m : String) (p : Option Json) (r : Json),
      (∀ q ∈ p, Structured_is q = true) → request id m p = some r →
      parse r = some (.request id m p)) ∧
    (∀ (m : String) (p : Option Json), (∀ q ∈ p, Structured_is q = true) →
      parse (notification m p) = some (.notification m p)) ∧
    (∀ (id : Json) (res : Option Json) (r : Json), response id res = some r →
      parse r = some (.response id (res.getD .null))) ∧
    (∀ (oid : Option Json) (code : Rat) (msg : String) (data : Option Json)
        (r : Json), error oid code msg data = some r →
      parse r = some (.error (oid.getD .null)
        (.obj ([("code", .num code), ("message", .str msg)] ++ optField "data" data)))) ∧
    (∀ v : Json, RequestJSON_is v = true →
      ∃ i mth p, parse v = some (.request i mth p)) ∧
    (∀ v : Json, RequestJSON_is v = false → NotificationJSON_is v = true →
      ∃ mth p, parse v = some (.notification mth p)) ∧
    (∀ v : Json, RequestJSON_is v = false → NotificationJSON_is v = false →
      ResponseJSON_is v = true → ∃ i r, parse v = some (.response i r)) ∧
    (∀ v : Json, RequestJSON_is v = false → NotificationJSON_is v = false →
      ResponseJSON_is v = false → ErrorJSON_is v = true →
      ∃ i e, parse v = some (.error i e)) ∧
    (∀ v : Json, RequestJSON_is v = false → NotificationJSON_is v = false →
      ResponseJSON_is v = false → ErrorJSON_is v = false → parse v = none) := by
  refine ⟨?_, ?_, ?_, ?_, ?_, ?_, ?_, ?_, ?_⟩
  · intro id m p r hp hr
    have hid : RPCID_is id = true := by
      by_contra hc
      simp [request, hc] at hr
    simp only [request, hid, if_true] at hr
    injection hr with hr
    subst hr
    cases p with
    | none =>
        simp [parse, RequestJSON_is, Dictionary_is, fieldIsString, fieldIsOpt,
          jsField, optField, List.lookup, hid]
    | some q =>
        have hq : Structured_is q = true := hp q rfl
        simp [parse, RequestJSON_is, Dictionary_is, fieldIsString, fieldIsOpt,
          jsField, optField, List.lookup, hid, hq]
  · intro m p hp
    cases p with
    | none =>
        simp [parse, notification, RequestJSON_is, NotificationJSON_is,
          Dictionary_is, fieldIsString, fieldIsOpt, jsField, optField,
          List.lookup]
    | some q =>
        have hq : Structured_is q = true := hp q rfl
        simp [parse, notification, RequestJSON_is, NotificationJSON_is,
          Dictionary_is, fieldIsString, fieldIsOpt, jsField, optField,
          List.lookup, hq]
  · intro id res r hr
    have hid : RPCID_is id = true := by
      by_contra hc
      simp [response, hc] at hr
    simp only [response, hid, if_true] at hr
    injection hr with hr
    subst hr
    simp [parse, RequestJSON_is, NotificationJSON_is, ResponseJSON_is,
      Dictionary_is, fieldIsString, fieldIsOpt, jsField, optField,
      List.lookup, hid, Some_is_true]
  · intro oid code msg data r hr
    by_cases h1 : ((oid.getD Json.null != Json.null &&
        !RPCID_is (oid.getD Json.null)) = true)
    · simp [error, h1] at hr
    · by_cases h2 : ((!(code.den == 1)) = true)
      · simp [error, h1, h2] at hr
      · simp [error, h1, h2] at hr
        subst hr
        have hidok : (RPCID_is (oid.getD .null) ||
            (oid.getD Json.null) == Json.null) = true := by
          by_cases hn : oid.getD Json.null = Json.null
          · simp [hn]
          · have hrid : RPCID_is (oid.getD Json.null) = true := by
              by_contra hc
              apply h1
              simp [bne_iff_ne, hn, hc]
            simp [hrid]
        have hcd : (code.den == 1) = true := by simpa using h2
        cases data with
            | none =>
                simp [parse, RequestJSON_is, NotificationJSON_is,
                  ResponseJSON_is, ErrorJSON_is, RPCErrorShape_is,
                  Dictionary_is, fieldIsString, fieldIsOpt, Integer_is,
                  jsField, optField, List.lookup, hidok, hcd, Some_is_true]
            | some dq =>
                simp [parse, RequestJSON_is, NotificationJSON_is,
                  ResponseJSON_is, ErrorJSON_is, RPCErrorShape_is,
                  Dictionary_is, fieldIsString, fieldIsOpt, Integer_is,
                  jsField, optField, List.lookup, hidok, hcd, Some_is_true]
  · intro v h
    obtain ⟨i, hi⟩ := RequestJSON_is_id v h
    obtain ⟨s, hm⟩ := RequestJSON_is_method v h
    exact ⟨i, s, jsField v "params", by simp [parse, h, hi, hm]⟩
  · intro v h1 h2
    obtain ⟨s, hm⟩ := NotificationJSON_is_method v h2
    exact ⟨s, jsField v "params", by simp [parse, h1, h2, hm]⟩
  · intro v h1 h2 h3
    obtain ⟨i, hi⟩ := ResponseJSON_is_id v h3
    obtain ⟨r, hr⟩ := ResponseJSON_is_result v h3
    exact ⟨i, r, by simp [parse, h1, h2, h3, hi, hr]⟩
  · intro v h1 h2 h3 h4
    obtain ⟨i, hi⟩ := ErrorJSON_is_id v h4
    obtain ⟨e, he⟩ := ErrorJSON_is_error v h4
    exact ⟨i, e, by simp [parse, h1, h2, h3, h4, hi, he]⟩
  · intro v h1 h2 h3 h4
    simp [parse, h1, h2, h3, h4]

/-- Witness for C8 at concrete messages. -/
theorem parse_build_roundtrip_witness :
    ((∀ q ∈ (some (Json.arr [.num 3]) : Option Json), Structured_is q = true) ∧
      request (.num 7) "add" (some (.arr [.num 3])) =
        some (.obj [("id", .num 7), ("method", .str "add"),
          ("params", .arr [.num 3]), ("jsonrpc", .str "2.0")]) ∧
      parse (.obj [("id", .num 7), ("method", .str "add"),
          ("params", .arr [.num 3]), ("jsonrpc", .str "2.0")]) =
        some (.request (.num 7) "add" (some (.arr [.num 3])))) ∧
    (parse (notification "note" none) = some (.notification "note" none)) ∧
    (response (.str "abc") none = some (.obj [("id", .str "abc"),
        ("jsonrpc", .str "2.0"), ("result", .null)]) ∧
      parse (.obj [("id", .str "abc"), ("jsonrpc", .str "2.0"),
        ("result", .null)]) = some (.response (.str "abc") .null)) ∧
    (error none 5 "oops" none = some (.obj [("jsonrpc", .str "2.0"),
        ("id", .null), ("error", .obj [("code", .num 5),
          ("message", .str "oops")])]) ∧
      parse (.obj [("jsonrpc", .str "2.0"), ("id", .null),
        ("error", .obj [("code", .num 5), ("message", .str "oops")])]) =
        some (.error .null (.obj [("code", .num 5), ("message", .str "oops")]))) ∧
    (RequestJSON_is (Json.num 3) = false ∧ NotificationJSON_is (Json.num 3) = false ∧
      ResponseJSON_is (Json.num 3) = false ∧ ErrorJSON_is (Json.num 3) = false ∧
      parse (Json.num 3) = none) := by
  refine ⟨⟨?_, by decide, ?_⟩, ?_, ⟨by decide, ?_⟩, ⟨by decide, ?_⟩,
    by decide, by decide, by decide, by decide, ?_⟩
  · intro q hq
    cases hq
    rfl
  · exact parse_build_roundtrip.1 (.num 7) "add" (some (.arr [.num 3])) _
      (fun q hq => by cases hq; rfl) (by decide)
  · exact parse_build_roundtrip.2.1 "note" none (fun q hq => by cases hq)
  · exact parse_build_roundtrip.2.2.1 (.str "abc") none _ (by decide)
  · exact parse_build_roundtrip.2.2.2.1 none 5 "oops" none _ (by decide)
  · exact parse_build_roundtrip.2.2.2.2.2.2.2.2 (Json.num 3)
      (by decide) (by decide) (by decide) (by decide)

/-! ### Concrete scenario states shared by the Peer claims -/

/-- A freshly constructed Peer whose id iterator will yield `0`. -/
def freshPeer : PeerState := ⟨[], false, [.num 0], [], [], [], [], []⟩

/-- `freshPeer` after `callMethod('foo', undefined, {timeout})`. -/
def calledPeer : PeerState := (callMethod freshPeer "foo" none (some 1000)).state

/-- `calledPeer` after the timeout timer fired. -/
def timedOutPeer : PeerState := fireTimer calledPeer 0

/-- `freshPeer` after its stream ended. -/
def endedPeer : PeerState := onend freshPeer

/-- The wire Response matching the outstanding call of `calledPeer`. -/
def lateResponse : Json :=
  .obj [("id", .num 0), ("jsonrpc", .str "2.0"), ("result", .str "OK")]

/-- A settlement attempt on an already settled handle leaves the state
untouched. -/
theorem settle_noop (st : PeerState) (h : Nat) (o' : Outcome) (o : Outcome)
    (hs : st.handles[h]? = some (some o)) : settle st h o' = st := by
  unfold settle
  rw [hs]

/-! ### Claim C1: at-most-once transition of a call's result handle -/

/-- **C1**: a call's result handle transitions at most once — whatever
event occurs next, a settled handle keeps its outcome — and a Response
matching a call whose handle has already settled (e.g. because the
timeout fired first) is silently accepted and dropped: its pending entry
is consumed, but the handles, the outbox and both error channels are
untouched, and in particular no "unexpected response" fault is raised. -/
theorem call_handle_transitions_once :
    (∀ (onReq : Option ReqHandler) (onNotif : Option NotifHandler)
        (st : PeerState) (e : PEvent) (h : Nat) (o : Outcome),
      st.handles[h]? = some (some o) →
      (step onReq onNotif st e).handles[h]? = some (some o)) ∧
    (∀ (onReq : Option ReqHandler) (onNotif : Option NotifHandler)
        (st : PeerState) (v id r : Json) (pr : PendingRequest) (o : Outcome),
      parse v = some (.response id r) →
      plookup st.pending id = some pr →
      st.handles[pr.handle]? = some (some o) →
      (writeChunk onReq onNotif st (.value v)).handles = st.handles ∧
      (writeChunk onReq onNotif st (.value v)).errorEvents = st.errorEvents ∧
      (writeChunk onReq onNotif st (.value v)).outbox = st.outbox ∧
      (writeChunk onReq onNotif st (.value v)).protocolErrorEvents =
        st.protocolErrorEvents ∧
      plookup (writeChunk onReq onNotif st (.value v)).pending id = none) := by
  refine ⟨step_stable, ?_⟩
  intro onReq onNotif st v id r pr o hp hl hs
  rw [writeChunk_response onReq onNotif st v id r hp,
    handleResponse_found st id r pr hl, reportThrown_none,
    settle_noop { st with pending := pdelete st.pending id } pr.handle _ o hs]
  exact ⟨rfl, rfl, rfl, rfl, plookup_pdelete_self st.pending id⟩

/-- Witness for C1: the documented race — timeout fires, then the matching
response arrives late. -/
theorem call_handle_transitions_once_witness :
    (timedOutPeer.handles[0]? =
        some (some (.rejected (.methodCallTimeout "foo"))) ∧
      (step none none timedOutPeer (.write (.value lateResponse))).handles[0]? =
        some (some (.rejected (.methodCallTimeout "foo")))) ∧
    (parse lateResponse = some (.response (.num 0) (.str "OK")) ∧
      plookup timedOutPeer.pending (.num 0) = some ⟨"foo", 0⟩ ∧
      (writeChunk none none timedOutPeer (.value lateResponse)).handles =
        timedOutPeer.handles ∧
      (writeChunk none none timedOutPeer (.value lateResponse)).errorEvents =
        timedOutPeer.errorEvents ∧
      plookup (writeChunk none none timedOutPeer
        (.value lateResponse)).pending (.num 0) = none) :=
  ⟨⟨by decide,
      call_handle_transitions_once.1 none none timedOutPeer
        (.write (.value lateResponse)) 0
        (.rejected (.methodCallTimeout "foo")) (by decide)⟩,
    by decide, by decide,
    (call_handle_transitions_once.2 none none timedOutPeer lateResponse
      (.num 0) (.str "OK") ⟨"foo", 0⟩ (.rejected (.methodCallTimeout "foo"))
      (by decide) (by decide) (by decide)).1,
    (call_handle_transitions_once.2 none none timedOutPeer lateResponse
      (.num 0) (.str "OK") ⟨"foo", 0⟩ (.rejected (.methodCallTimeout "foo"))
      (by decide) (by decide) (by decide)).2.1,
    (call_handle_transitions_once.2 none none timedOutPeer lateResponse
      (.num 0) (.str "OK") ⟨"foo", 0⟩ (.rejected (.methodCallTimeout "foo"))
      (by decide) (by decide) (by decide)).2.2.2.2⟩

/-! ### Claim C2: timeout firing and timer cancellation -/

theorem fireTimer_pending (st : PeerState) (t : Nat) :
    (fireTimer st t).pending = st.pending := by
  cases htm : st.timers[t]? with
  | none => simp [fireTimer, htm]
  | some tm =>
      cases hA : tm.active with
      | false => simp [fireTimer, htm, hA]
      | true =>
          simp only [fireTimer, htm, hA, if_true]
          exact settle_pending st tm.handle _

theorem fireTimer_ended (st : PeerState) (t : Nat) :
    (fireTimer st t).ended = st.ended := by
  cases htm : st.timers[t]? with
  | none => simp [fireTimer, htm]
  | some tm =>
      cases hA : tm.active with
      | false => simp [fireTimer, htm, hA]
      | true =>
          simp only [fireTimer, htm, hA, if_true]
          exact settle_ended st tm.handle _

/-- Counterexample to C2 as stated: in the concrete timeout scenario the
timer fires, the handle is rejected with the timeout fault — yet the
call's entry is still in the pending-call mapping, not removed. -/
theorem timeout_entry_not_removed :
    timedOutPeer.handles = [some (.rejected (.methodCallTimeout "foo"))] ∧
    timedOutPeer.pending = [(.num 0, ⟨"foo", 0⟩)] ∧
    ¬plookup timedOutPeer.pending (.num 0) = none := by decide

/-- **C2 (amended)**: when an armed timer fires for a call whose handle is
still unsettled, the handle is rejected with a timeout fault, but the
pending entry is NOT removed from the mapping (it is only consumed later
by a matching response/error or by stream closure); the timer is
deactivated on the call's settlement — on the timeout itself, on normal
completion by a matching response, and on stream closure. -/
theorem timeout_firing_behavior :
    (∀ (st : PeerState) (t : Nat),
      (fireTimer st t).pending = st.pending ∧
      (fireTimer st t).ended = st.ended) ∧
    (∀ (st : PeerState) (t : Nat) (tm : Timer),
      st.timers[t]? = some tm → tm.active = true →
      st.handles[tm.handle]? = some none →
      (fireTimer st t).handles[tm.handle]? =
        some (some (.rejected (.methodCallTimeout tm.method))) ∧
      timersClearedFor tm.handle (fireTimer st t).timers) ∧
    (∀ (onReq : Option ReqHandler) (onNotif : Option NotifHandler)
        (st : PeerState) (v id r : Json) (pr : PendingRequest),
      parse v = some (.response id r) →
      plookup st.pending id = some pr →
      st.handles[pr.handle]? = some none →
      timersClearedFor pr.handle
        (writeChunk onReq onNotif st (.value v)).timers) ∧
    (∀ (st : PeerState) (id : Json) (pr : PendingRequest),
      (id, pr) ∈ st.pending → st.handles[pr.handle]? = some none →
      timersClearedFor pr.handle (onend st).timers) := by
  refine ⟨fun st t => ⟨fireTimer_pending st t, fireTimer_ended st t⟩, ?_, ?_, ?_⟩
  · intro st t tm htm hA hu
    have hred : fireTimer st t =
        settle st tm.handle (.rejected (.methodCallTimeout tm.method)) := by
      simp only [fireTimer, htm, hA, if_true]
    rw [hred]
    exact ⟨settle_sets st tm.handle _ hu, settle_clears_own st tm.handle _ hu⟩
  · intro onReq onNotif st v id r pr hp hl hu
    rw [writeChunk_response onReq onNotif st v id r hp,
      handleResponse_found st id r pr hl, reportThrown_none]
    exact settle_clears_own { st with pending := pdelete st.pending id }
      pr.handle _ hu
  · intro st id pr hmem hu
    rw [onend_eq]
    exact rejectAll_clears st.pending { st with ended := true } id pr hmem hu

/-- Witness for C2 (amended) in the concrete timeout scenario. -/
theorem timeout_firing_behavior_witness :
    ((calledPeer.timers[0]? = some ⟨0, "foo", true⟩ ∧
        calledPeer.handles[0]? = some none) ∧
      (fireTimer calledPeer 0).handles[0]? =
        some (some (.rejected (.methodCallTimeout "foo"))) ∧
      timersClearedFor 0 (fireTimer calledPeer 0).timers) ∧
    (timersClearedFor 0
      (writeChunk none none calledPeer (.value lateResponse)).timers) ∧
    (((.num 0 : Json), (⟨"foo", 0⟩ : PendingRequest)) ∈ calledPeer.pending ∧
      timersClearedFor 0 (onend calledPeer).timers) :=
  ⟨⟨⟨by decide, by decide⟩,
      (timeout_firing_behavior.2.1 calledPeer 0 ⟨0, "foo", true⟩
        (by decide) (by decide) (by decide)).1,
      (timeout_firing_behavior.2.1 calledPeer 0 ⟨0, "foo", true⟩
        (by decide) (by decide) (by decide)).2⟩,
    timeout_firing_behavior.2.2.1 none none calledPeer lateResponse
      (.num 0) (.str "OK") ⟨"foo", 0⟩ (by decide) (by decide) (by decide),
    ⟨by decide,
      timeout_firing_behavior.2.2.2 calledPeer (.num 0) ⟨"foo", 0⟩
        (by decide) (by decide)⟩⟩

/-! ### Claim C3: behavior at and after the Open→Closed transition -/

/-- Counterexample to C3 as stated: after the stream has ended, a
`sendNotification` is not dropped — the Notification is still pushed to
the Peer's readable side (cf. the library's own test that a Response can
still be delivered after the writable side closed). -/
theorem closed_notification_not_dropped :
    endedPeer.ended = true ∧
    sendNotification endedPeer "ping" none =
      { endedPeer with outbox := endedPeer.outbox ++ [notification "ping" none] } ∧
    ¬(sendNotification endedPeer "ping" none).outbox = endedPeer.outbox := by
  refine ⟨by decide, rfl, by decide⟩

/-- **C3 (amended)**: on the Open→Closed transition every pending entry is
removed (its still-unsettled handle rejected with the stream-closed
fault) and the mapping is cleared; a `callMethod` after the transition
returns an immediately rejected handle carrying the same fault and emits
no Request; `sendNotification` and `pushError` (with a well-formed error
spec) after the transition never throw and leave the pending mapping and
the ended flag unchanged — but the message is still pushed to the
readable side rather than dropped. -/
theorem stream_close_behavior :
    (∀ st : PeerState,
      (onend st).pending = [] ∧ (onend st).ended = true ∧
      (onend st).outbox = st.outbox ∧ (onend st).errorEvents = st.errorEvents) ∧
    (∀ (st : PeerState) (id : Json) (pr : PendingRequest),
      (id, pr) ∈ st.pending →
      (st.pending.map (fun kv => kv.2.handle)).Nodup →
      st.handles[pr.handle]? = some none →
      (onend st).handles[pr.handle]? =
        some (some (.rejected (.rpcStreamClosed pr.method)))) ∧
    (∀ (st : PeerState) (m : String) (p : Option Json) (tmo : Option Rat),
      st.ended = true →
      callMethod st m p tmo =
        .ok { st with handles := st.handles ++
          [some (.rejected (.rpcStreamClosed m))] } st.handles.length) ∧
    (∀ (st : PeerState) (m : String) (p : Option Json),
      sendNotification st m p =
        { st with outbox := st.outbox ++ [notification m p] }) ∧
    (∀ (st : PeerState) (oid : Option Json) (code : Rat) (msg : String)
        (data : Option Json),
      (code.den == 1) = true →
      ((oid.getD Json.null != Json.null &&
        !RPCID_is (oid.getD Json.null)) = true → False) →
      ∃ e, error oid code msg data = some e ∧
        pushError st oid code msg data =
          some { st with outbox := st.outbox ++ [e] }) := by
  refine ⟨?_, ?_, ?_, fun st m p => rfl, ?_⟩
  · intro st
    rw [onend_eq]
    refine ⟨rfl, ?_, ?_, ?_⟩
    · simp [rejectAll_ended]
    · simp [rejectAll_outbox]
    · simp [rejectAll_errorEvents]
  · intro st id pr hmem hnd hu
    rw [onend_eq]
    exact rejectAll_rejects st.pending { st with ended := true } id pr hmem hnd hu
  · intro st m p tmo hend
    simp [callMethod, hend]
  · intro st oid code msg data hcd h1
    have he : error oid code msg data =
        some (.obj [("jsonrpc", .str "2.0"), ("id", oid.getD Json.null),
          ("error", .obj ([("code", .num code), ("message", .str msg)]
            ++ optField "data" data))]) := by
      simp only [error]
      rw [if_neg (fun hc => h1 hc), if_neg (by simp [hcd])]
    exact ⟨_, he, by simp [pushError, he, pushMsg]⟩

/-- Witness for C3 (amended) at concrete states. -/
theorem stream_close_behavior_witness :
    ((((.num 0 : Json), (⟨"foo", 0⟩ : PendingRequest)) ∈ calledPeer.pending ∧
        (calledPeer.pending.map (fun kv => kv.2.handle)).Nodup ∧
        calledPeer.handles[0]? = some none) ∧
      (onend calledPeer).handles[0]? =
        some (some (.rejected (.rpcStreamClosed "foo")))) ∧
    (endedPeer.ended = true ∧
      callMethod endedPeer "bar" none none =
        .ok { endedPeer with handles := endedPeer.handles ++
          [some (.rejected (.rpcStreamClosed "bar"))] } endedPeer.handles.length) ∧
    (∃ e, error none 5 "oops" none = some e ∧
      pushError endedPeer none 5 "oops" none =
        some { endedPeer with outbox := endedPeer.outbox ++ [e] }) :=
  ⟨⟨⟨by decide, by decide, by decide⟩,
      stream_close_behavior.2.1 calledPeer (.num 0) ⟨"foo", 0⟩
        (by decide) (by decide) (by decide)⟩,
    ⟨by decide,
      stream_close_behavior.2.2.1 endedPeer "bar" none none (by decide)⟩,
    stream_close_behavior.2.2.2.2 endedPeer none 5 "oops" none
      (by decide) (by decide)⟩

/-! ### Claim C4: matching and non-matching Responses and Errors -/

/-- **C4**: an inbound Response whose id keys a pending entry removes that
entry and resolves its (unsettled) handle with the Response's result,
with no wire traffic; a Response with no matching entry only raises an
"unexpected response" diagnostic on the local error channel.  An inbound
Error with a matching non-null id removes the entry and rejects its
handle with an RPC fault carrying the remote code/message/data; a
non-matching non-null id raises the "unexpected response" diagnostic;
a null id raises the constructed RPC fault itself — and none of the
fault paths touches the outbox or any other state. -/
theorem response_error_handling :
    (∀ (onReq : Option ReqHandler) (onNotif : Option NotifHandler)
        (st : PeerState) (v id r : Json) (pr : PendingRequest),
      parse v = some (.response id r) →
      plookup st.pending id = some pr →
      st.handles[pr.handle]? = some none →
      (writeChunk onReq onNotif st (.value v)).pending = pdelete st.pending id ∧
      (writeChunk onReq onNotif st (.value v)).handles[pr.handle]? =
        some (some (.resolved r)) ∧
      (writeChunk onReq onNotif st (.value v)).errorEvents = st.errorEvents ∧
      (writeChunk onReq onNotif st (.value v)).outbox = st.outbox) ∧
    (∀ (onReq : Option ReqHandler) (onNotif : Option NotifHandler)
        (st : PeerState) (v id r : Json),
      parse v = some (.response id r) →
      plookup st.pending id = none →
      writeChunk onReq onNotif st (.value v) =
        { st with errorEvents := st.errorEvents ++
            [.unexpectedResponse id "response"] }) ∧
    (∀ (onReq : Option ReqHandler) (onNotif : Option NotifHandler)
        (st : PeerState) (v id e : Json) (pr : PendingRequest),
      parse v = some (.error id e) →
      id ≠ Json.null →
      plookup st.pending id = some pr →
      st.handles[pr.handle]? = some none →
      (writeChunk onReq onNotif st (.value v)).pending = pdelete st.pending id ∧
      (writeChunk onReq onNotif st (.value v)).handles[pr.handle]? =
        some (some (.rejected (.rpcError (jsField e "message")
          (jsField e "code") (jsField e "data")))) ∧
      (writeChunk onReq onNotif st (.value v)).errorEvents = st.errorEvents ∧
      (writeChunk onReq onNotif st (.value v)).outbox = st.outbox) ∧
    (∀ (onReq : Option ReqHandler) (onNotif : Option NotifHandler)
        (st : PeerState) (v id e : Json),
      parse v = some (.error id e) →
      id ≠ Json.null →
      plookup st.pending id = none →
      writeChunk onReq onNotif st (.value v) =
        { st with errorEvents := st.errorEvents ++
            [.unexpectedResponse id "error"] }) ∧
    (∀ (onReq : Option ReqHandler) (onNotif : Option NotifHandler)
        (st : PeerState) (v e : Json),
      parse v = some (.error .null e) →
      writeChunk onReq onNotif st (.value v) =
        { st with errorEvents := st.errorEvents ++
            [.rpcError (jsField e "message") (jsField e "code")
              (jsField e "data")] }) := by
  refine ⟨?_, ?_, ?_, ?_, ?_⟩
  · intro onReq onNotif st v id r pr hp hl hu
    rw [writeChunk_response onReq onNotif st v id r hp,
      handleResponse_found st id r pr hl, reportThrown_none]
    refine ⟨?_, ?_, ?_, ?_⟩
    · rw [settle_pending]
    · exact settle_sets { st with pending := pdelete st.pending id }
        pr.handle _ hu
    · rw [settle_errorEvents]
    · rw [settle_outbox]
  · intro onReq onNotif st v id r hp hl
    rw [writeChunk_response onReq onNotif st v id r hp,
      handleResponse_missing st id r hl, reportThrown_some]
  · intro onReq onNotif st v id e pr hp hnn hl hu
    rw [writeChunk_error onReq onNotif st v id e hp,
      handleError_found st id e pr hnn hl, reportThrown_none]
    refine ⟨?_, ?_, ?_, ?_⟩
    · rw [settle_pending]
    · exact settle_sets { st with pending := pdelete st.pending id }
        pr.handle _ hu
    · rw [settle_errorEvents]
    · rw [settle_outbox]
  · intro onReq onNotif st v id e hp hnn hl
    rw [writeChunk_error onReq onNotif st v id e hp,
      handleError_missing st id e hnn hl, reportThrown_some]
  · intro onReq onNotif st v e hp
    rw [writeChunk_error onReq onNotif st v Json.null e hp,
      handleError_nullId st e, reportThrown_some]

/-- The wire Error matching the outstanding call of `calledPeer`. -/
def matchingError : Json :=
  .obj [("id", .num 0), ("jsonrpc", .str "2.0"),
    ("error", .obj [("code", .num 7), ("message", .str "remote failure")])]

/-- A wire Error with a null id. -/
def nullIdError : Json :=
  .obj [("id", .null), ("jsonrpc", .str "2.0"),
    ("error", .obj [("code", .num 8), ("message", .str "anonymous failure")])]

/-- Witness for C4 at concrete messages against `calledPeer`. -/
theorem response_error_handling_witness :
    ((writeChunk none none calledPeer (.value lateResponse)).pending =
        pdelete calledPeer.pending (.num 0) ∧
      (writeChunk none none calledPeer (.value lateResponse)).handles[0]? =
        some (some (.resolved (.str "OK"))) ∧
      (writeChunk none none calledPeer (.value lateResponse)).outbox =
        calledPeer.outbox) ∧
    (writeChunk none none freshPeer (.value lateResponse) =
      { freshPeer with errorEvents := freshPeer.errorEvents ++
          [.unexpectedResponse (.num 0) "response"] }) ∧
    ((writeChunk none none calledPeer (.value matchingError)).handles[0]? =
      some (some (.rejected (.rpcError (some (.str "remote failure"))
        (some (.num 7)) none)))) ∧
    (writeChunk none none freshPeer (.value matchingError) =
      { freshPeer with errorEvents := freshPeer.errorEvents ++
          [.unexpectedResponse (.num 0) "error"] }) ∧
    (writeChunk none none freshPeer (.value nullIdError) =
      { freshPeer with errorEvents := freshPeer.errorEvents ++
          [.rpcError (some (.str "anonymous failure")) (some (.num 8)) none] }) := by
  have h1 := response_error_handling.1 none none calledPeer lateResponse
    (.num 0) (.str "OK") ⟨"foo", 0⟩ (by decide) (by decide) (by decide)
  have h3 := response_error_handling.2.2.1 none none calledPeer matchingError
    (.num 0) (.obj [("code", .num 7), ("message", .str "remote failure")])
    ⟨"foo", 0⟩ (by decide) (by decide) (by decide) (by decide)
  refine ⟨⟨h1.1, h1.2.1, h1.2.2.2⟩, ?_, ?_, ?_, ?_⟩
  · exact response_error_handling.2.1 none none freshPeer lateResponse
      (.num 0) (.str "OK") (by decide) (by decide)
  · have := h3.2.1
    simpa using this
  · exact response_error_handling.2.2.2.1 none none freshPeer matchingError
      (.num 0) (.obj [("code", .num 7), ("message", .str "remote failure")])
      (by decide) (by decide) (by decide)
  · exact response_error_handling.2.2.2.2 none none freshPeer nullIdError
      (.obj [("code", .num 8), ("message", .str "anonymous failure")])
      (by decide)

/-! ### Claim C5: decode faults and unparsable inbound values -/

/-- **C5**: a tagged decode-fault chunk (a `ParseError` written by the
codec) makes the Peer emit an Error message with id null and code −32700
(PARSE_ERROR), signal a `protocolError` event, and raise nothing on the
local error channel; every other inbound value that `parse` rejects makes
it emit an Error message with id null and code −32600 (INVALID_REQUEST)
carrying the offending value as `badObject` diagnostic data, signal a
`protocolError` event, and stop — no other part of the state changes. -/
theorem malformed_input_handling :
    (∀ (onReq : Option ReqHandler) (onNotif : Option NotifHandler)
        (st : PeerState) (msg : String) (data : Option Json),
      error none (-32700) msg data =
        some (.obj [("jsonrpc", .str "2.0"), ("id", .null),
          ("error", .obj ([("code", .num (-32700)), ("message", .str msg)]
            ++ optField "data" data))]) ∧
      writeChunk onReq onNotif st (.parseErr msg data) =
        { st with
          protocolErrorEvents := st.protocolErrorEvents ++ [.parseError msg data],
          outbox := st.outbox ++ [.obj [("jsonrpc", .str "2.0"), ("id", .null),
            ("error", .obj ([("code", .num (-32700)), ("message", .str msg)]
              ++ optField "data" data))]] }) ∧
    (∀ (onReq : Option ReqHandler) (onNotif : Option NotifHandler)
        (st : PeerState) (v : Json),
      parse v = none →
      writeChunk onReq onNotif st (.value v) =
        { st with
          protocolErrorEvents := st.protocolErrorEvents ++
            [.invalidRequest "Not a valid JSON-RPC object" v],
          outbox := st.outbox ++ [.obj [("jsonrpc", .str "2.0"), ("id", .null),
            ("error", .obj [("code", .num (-32600)),
              ("message", .str "Not a valid JSON-RPC object"),
              ("data", .obj [("badObject", v)])])]] }) := by
  have hid : ((none : Option Json).getD Json.null != Json.null &&
      !RPCID_is ((none : Option Json).getD Json.null)) = false := by decide
  have hc1 : (!((-32700 : Rat).den == 1)) = false := by decide
  have hc2 : (!((-32600 : Rat).den == 1)) = false := by decide
  refine ⟨?_, ?_⟩
  · intro onReq onNotif st msg data
    have he : error none (-32700) msg data =
        some (.obj [("jsonrpc", .str "2.0"), ("id", .null),
          ("error", .obj ([("code", .num (-32700)), ("message", .str msg)]
            ++ optField "data" data))]) := by
      simp only [error]
      rw [if_neg (by simp [hid]), if_neg (by simp [hc1])]
      simp
    refine ⟨he, ?_⟩
    rw [writeChunk_parseErr]
    simp [pushErrObj, pushError, he, pushMsg]
  · intro onReq onNotif st v hp
    have he : error none (-32600) "Not a valid JSON-RPC object"
        (some (.obj [("badObject", v)])) =
        some (.obj [("jsonrpc", .str "2.0"), ("id", .null),
          ("error", .obj [("code", .num (-32600)),
            ("message", .str "Not a valid JSON-RPC object"),
            ("data", .obj [("badObject", v)])])]) := by
      simp only [error]
      rw [if_neg (by simp [hid]), if_neg (by simp [hc2])]
      simp [optField]
    rw [writeChunk_parseFail onReq onNotif st v hp]
    simp [pushErrObj, pushError, he, pushMsg]

/-- Witness for C5 at a concrete undecodable chunk and a concrete
unparsable value. -/
theorem malformed_input_handling_witness :
    (writeChunk none none freshPeer (.parseErr "bad json" none) =
      { freshPeer with
        protocolErrorEvents := [.parseError "bad json" none],
        outbox := [.obj [("jsonrpc", .str "2.0"), ("id", .null),
          ("error", .obj [("code", .num (-32700)),
            ("message", .str "bad json")])]] }) ∧
    (parse (Json.str "garbage") = none ∧
      writeChunk none none freshPeer (.value (.str "garbage")) =
        { freshPeer with
          protocolErrorEvents :=
            [.invalidRequest "Not a valid JSON-RPC object" (.str "garbage")],
          outbox := [.obj [("jsonrpc", .str "2.0"), ("id", .null),
            ("error", .obj [("code", .num (-32600)),
              ("message", .str "Not a valid JSON-RPC object"),
              ("data", .obj [("badObject", .str "garbage")])])]] }) := by
  refine ⟨?_, by decide, ?_⟩
  · have h := (malformed_input_handling.1 none none freshPeer "bad json" none).2
    simpa [optField] using h
  · exact malformed_input_handling.2 none none freshPeer (.str "garbage")
      (by decide)

/-! ### Claim C7: faults inside notification handlers -/

/-- A notification handler that throws. -/
def throwingNotifHandler : NotifHandler :=
  fun _ _ => .error (.jsError "notif handler fault")

/-- Counterexample to C7 as stated: a fault thrown synchronously inside
the notification handler is not discarded — it escapes `handleNotification`,
is caught by `_write`, and surfaces through the write callback as a
stream `'error'` event. -/
theorem notification_fault_surfaces :
    writeChunk none (some throwingNotifHandler) freshPeer
        (.value (notification "evt" none)) =
      { freshPeer with errorEvents := [.jsError "notif handler fault"] } ∧
    ¬(writeChunk none (some throwingNotifHandler) freshPeer
        (.value (notification "evt" none))).errorEvents =
      freshPeer.errorEvents := by
  refine ⟨by decide, by decide⟩

/-- **C7 (amended)**: an inbound Notification invokes the attached handler
with (method, params); nothing is ever reported to the remote side and a
handler that returns normally leaves the state untouched — but a fault
thrown synchronously inside the handler is not silently discarded: it
propagates out of the dispatch and surfaces on the Peer's stream error
channel (the `_write` callback). -/
theorem notification_handling :
    (∀ (onReq : Option ReqHandler) (f : NotifHandler) (st : PeerState)
        (v : Json) (m : String) (p : Option Json),
      parse v = some (.notification m p) →
      f m p = .ok () →
      writeChunk onReq (some f) st (.value v) = st) ∧
    (∀ (onReq : Option ReqHandler) (f : NotifHandler) (st : PeerState)
        (v : Json) (m : String) (p : Option Json) (e : Fault),
      parse v = some (.notification m p) →
      f m p = .error e →
      writeChunk onReq (some f) st (.value v) =
        { st with errorEvents := st.errorEvents ++ [e] }) ∧
    (∀ (onReq : Option ReqHandler) (st : PeerState) (v : Json) (m : String)
        (p : Option Json),
      parse v = some (.notification m p) →
      writeChunk onReq none st (.value v) = st) := by
  refine ⟨?_, ?_, ?_⟩
  · intro onReq f st v m p hp hf
    rw [writeChunk_notif onReq (some f) st v m p hp]
    simp only [handleNotification, hf, reportThrown_none]
  · intro onReq f st v m p e hp hf
    rw [writeChunk_notif onReq (some f) st v m p hp]
    simp only [handleNotification, hf, reportThrown_some]
  · intro onReq st v m p hp
    rw [writeChunk_notif onReq none st v m p hp]
    simp only [handleNotification, reportThrown_none]

/-- A notification handler that returns normally. -/
def silentNotifHandler : NotifHandler := fun _ _ => .ok ()

/-- Witness for C7 (amended) with concrete handlers. -/
theorem notification_handling_witness :
    (parse (notification "evt" none) = some (.notification "evt" none) ∧
      silentNotifHandler "evt" none = .ok () ∧
      writeChunk none (some silentNotifHandler) freshPeer
        (.value (notification "evt" none)) = freshPeer) ∧
    (throwingNotifHandler "evt" none = .error (.jsError "notif handler fault") ∧
      writeChunk none (some throwingNotifHandler) freshPeer
        (.value (notification "evt" none)) =
        { freshPeer with errorEvents := freshPeer.errorEvents ++
            [.jsError "notif handler fault"] }) ∧
    writeChunk none none freshPeer (.value (notification "evt" none)) =
      freshPeer :=
  ⟨⟨by decide, rfl,
      notification_handling.1 none silentNotifHandler freshPeer
        (notification "evt" none) "evt" none (by decide) rfl⟩,
    ⟨rfl,
      notification_handling.2.1 none throwingNotifHandler freshPeer
        (notification "evt" none) "evt" none (.jsError "notif handler fault")
        (by decide) rfl⟩,
    notification_handling.2.2 none freshPeer (notification "evt" none)
      "evt" none (by decide)⟩

/-! ### Claim C10: frame property of Response/Error processing -/

/-- **C10**: `handleResponse` and `handleError` mutate at most one pending
entry: a matching id removes exactly that entry (every other key still
maps to the same value) and leaves the ended flag unchanged; a
non-matching id, or a null Error id, returns the state completely
unchanged alongside the thrown fault. -/
theorem response_error_frame :
    (∀ (st : PeerState) (id r : Json) (pr : PendingRequest),
      plookup st.pending id = some pr →
      (handleResponse st id r).1.pending = pdelete st.pending id ∧
      plookup (handleResponse st id r).1.pending id = none ∧
      (∀ id', id' ≠ id → plookup (handleResponse st id r).1.pending id' =
        plookup st.pending id') ∧
      (handleResponse st id r).1.ended = st.ended) ∧
    (∀ (st : PeerState) (id r : Json),
      plookup st.pending id = none →
      handleResponse st id r = (st, some (.unexpectedResponse id "response"))) ∧
    (∀ (st : PeerState) (id e : Json) (pr : PendingRequest),
      id ≠ Json.null →
      plookup st.pending id = some pr →
      (handleError st id e).1.pending = pdelete st.pending id ∧
      plookup (handleError st id e).1.pending id = none ∧
      (∀ id', id' ≠ id → plookup (handleError st id e).1.pending id' =
        plookup st.pending id') ∧
      (handleError st id e).1.ended = st.ended) ∧
    (∀ (st : PeerState) (id e : Json),
      id ≠ Json.null →
      plookup st.pending id = none →
      handleError st id e = (st, some (.unexpectedResponse id "error"))) ∧
    (∀ (st : PeerState) (e : Json),
      handleError st Json.null e =
        (st, some (.rpcError (jsField e "message") (jsField e "code")
          (jsField e "data")))) := by
  refine ⟨?_, handleResponse_missing, ?_, handleError_missing, handleError_nullId⟩
  · intro st id r pr hl
    rw [handleResponse_found st id r pr hl]
    refine ⟨?_, ?_, ?_, ?_⟩
    · rw [settle_pending]
    · rw [settle_pending]
      exact plookup_pdelete_self st.pending id
    · intro id' hne
      rw [settle_pending]
      exact plookup_pdelete_ne st.pending id id' hne
    · rw [settle_ended]
  · intro st id e pr hnn hl
    rw [handleError_found st id e pr hnn hl]
    refine ⟨?_, ?_, ?_, ?_⟩
    · rw [settle_pending]
    · rw [settle_pending]
      exact plookup_pdelete_self st.pending id
    · intro id' hne
      rw [settle_pending]
      exact plookup_pdelete_ne st.pending id id' hne
    · rw [settle_ended]

/-- Witness for C10 against `calledPeer` and `freshPeer`. -/
theorem response_error_frame_witness :
    ((handleResponse calledPeer (.num 0) (.str "OK")).1.pending =
        pdelete calledPeer.pending (.num 0) ∧
      plookup (handleResponse calledPeer (.num 0) (.str "OK")).1.pending
        (.num 0) = none ∧
      plookup (handleResponse calledPeer (.num 0) (.str "OK")).1.pending
        (.num 1) = plookup calledPeer.pending (.num 1) ∧
      (handleResponse calledPeer (.num 0) (.str "OK")).1.ended =
        calledPeer.ended) ∧
    (handleResponse freshPeer (.num 5) (.str "OK") =
      (freshPeer, some (.unexpectedResponse (.num 5) "response"))) ∧
    ((handleError calledPeer (.num 0)
        (.obj [("code", .num 7), ("message", .str "remote failure")])).1.pending =
      pdelete calledPeer.pending (.num 0)) ∧
    (handleError freshPeer (.str "yellow")
        (.obj [("code", .num 1), ("message", .str "")]) =
      (freshPeer, some (.unexpectedResponse (.str "yellow") "error"))) ∧
    (handleError freshPeer Json.null
        (.obj [("code", .num 8), ("message", .str "anonymous failure")]) =
      (freshPeer, some (.rpcError (some (.str "anonymous failure"))
        (some (.num 8)) none))) := by
  have h1 := response_error_frame.1 calledPeer (.num 0) (.str "OK")
    ⟨"foo", 0⟩ (by decide)
  have h3 := response_error_frame.2.2.1 calledPeer (.num 0)
    (.obj [("code", .num 7), ("message", .str "remote failure")])
    ⟨"foo", 0⟩ (by decide) (by decide)
  refine ⟨⟨h1.1, h1.2.1, h1.2.2.1 (.num 1) (by decide), h1.2.2.2⟩, ?_, h3.1, ?_, ?_⟩
  · exact response_error_frame.2.1 freshPeer (.num 5) (.str "OK") (by decide)
  · exact response_error_frame.2.2.2.1 freshPeer (.str "yellow")
      (.obj [("code", .num 1), ("message", .str "")]) (by decide) (by decide)
  · have h5 := response_error_frame.2.2.2.2 freshPeer
      (.obj [("code", .num 8), ("message", .str "anonymous failure")])
    simpa using h5

end JsonRpc
